import Mathlib

/-!
Verification of the ICE agent (`Source/OnlineSubsystemICE`) against its
natural-language specification.  The C++ agent is shallowly embedded:

* `FString` values are embedded as `List Char` where the text is inspected
  character by character, and as `List Nat` (byte lists) where the code writes
  them into wire buffers with `uint8` stores (each store truncates modulo 256).
* Machine integers are `Nat`/`Int`; where the code stores into a narrower
  field the truncation `% 2 ^ w` is written explicitly.
* `float` timers are embedded as exact rationals (`Rat`); the agent only
  accumulates and compares them.
* Socket and platform calls (`SendTo`, `RecvFrom`, `Wait`, address
  resolution, `FSHA1`/`FMD5` from the engine) are oracles passed in as
  explicit environment values, so every operation is a pure function of the
  agent state and its environment.  `ISocketSubsystem::Get` failure returns
  are control-flow-equivalent to the modeled address-resolution failures and
  are folded into those flags.
* The wire-format attribute walks are written with an explicit fuel
  parameter (initialised to `BytesRead`); the C++ `while` loop advances its
  offset by at least 4 bytes per iteration, so the fuel never runs out
  before the loop condition fails.
-/

namespace OnlineSubsystemICE

/-- STUN Magic Cookie (RFC 5389), `STUNConstants::MAGIC_COOKIE`. -/
def MAGIC_COOKIE : Nat := 0x2112A442

/-- First 16 bits of the magic cookie, `STUNConstants::MAGIC_COOKIE_HIGH`. -/
def MAGIC_COOKIE_HIGH : Nat := 0x2112

/-- `STUNConstants::MESSAGE_INTEGRITY_ATTR_SIZE` = header(4) + HMAC-SHA1(20). -/
def MESSAGE_INTEGRITY_ATTR_SIZE : Nat := 24

/-- `STUNConstants::CHANNEL_NUMBER_MIN`. -/
def CHANNEL_NUMBER_MIN : Nat := 0x4000

/-- `STUNConstants::CHANNEL_NUMBER_MAX`. -/
def CHANNEL_NUMBER_MAX : Nat := 0x7FFF

/-- XOR encoding of a 16-bit port, as written by
`FICEAgent::PerformTURNCreatePermission`:
`uint16 XorPort = PeerPort ^ STUNConstants::MAGIC_COOKIE_HIGH;`
(the `uint16` store truncates to 16 bits). -/
def xorEncodePort (port : Nat) : Nat := (port ^^^ MAGIC_COOKIE_HIGH) % 65536

/-- XOR encoding of an IPv4 address, as written by
`FICEAgent::PerformTURNCreatePermission`:
`uint32 XorIP = PeerIPValue ^ STUNConstants::MAGIC_COOKIE;`. -/
def xorEncodeIP (ip : Nat) : Nat := (ip ^^^ MAGIC_COOKIE) % 4294967296

/-- XOR decoding of a port, as read by `FICEAgent::PerformSTUNRequest`:
`OutPublicPort = XorPort ^ STUNConstants::MAGIC_COOKIE_HIGH;` where
`XorPort` was assembled from two response bytes (hence `< 2 ^ 16`). -/
def xorDecodePort (xport : Nat) : Nat := xport ^^^ MAGIC_COOKIE_HIGH

/-- XOR decoding of an IPv4 address, as read by `FICEAgent::PerformSTUNRequest`:
`uint32 PublicIPValue = XorIP ^ STUNConstants::MAGIC_COOKIE;`. -/
def xorDecodeIP (xip : Nat) : Nat := (xip ^^^ MAGIC_COOKIE) % 4294967296

/-- Types of ICE candidates (`EICECandidateType`). -/
inductive EICECandidateType where
  | Host
  | ServerReflexive
  | Relayed
deriving DecidableEq, Repr

/-- `FICEAgent::CalculatePriority` (ICE priority per RFC 8445).  The `int32`
arithmetic never overflows for the preference values the agent uses, so the
computation is embedded over `Nat` (with `Nat` truncated subtraction for
`256 - ComponentId`, which agrees with the source for `ComponentId ≤ 256`). -/
def CalculatePriority (Typ : EICECandidateType) (LocalPreference ComponentId : Nat) : Nat :=
  let TypePreference : Nat :=
    match Typ with
    | .Host => 126
    | .ServerReflexive => 100
    | .Relayed => 0
  (TypePreference <<< 24) ||| (LocalPreference <<< 8) ||| (256 - ComponentId)

/-- The type-preference table exactly as the specification states it:
126 for Host, 100 for ServerReflexive, 0 for Relayed. -/
def specTypePref : EICECandidateType → Nat
  | .Host => 126
  | .ServerReflexive => 100
  | .Relayed => 0

end OnlineSubsystemICE

namespace OnlineSubsystemICE

/-- **C9.** For every candidate type, local preference and component id, the
priority computed by `FICEAgent::CalculatePriority` is
`(TypePref <<< 24) ||| (LocalPref <<< 8) ||| (256 - ComponentId)` with
TypePref = 126 (Host), 100 (ServerReflexive), 0 (Relayed). -/
theorem calculatePriority_spec (T : EICECandidateType) (LP CID : Nat) :
    CalculatePriority T LP CID = (specTypePref T <<< 24) ||| (LP <<< 8) ||| (256 - CID) := by
  cases T <;> rfl

/-- **C8.** XOR-address encoding followed by decoding is the identity:
decoding XORs the port with the top 16 bits of the magic cookie and the IP
with the whole cookie, encoding is the inverse, so
`decode (encode (ip, port)) = (ip, port)` for every IPv4 address and 16-bit
port. -/
theorem xorAddress_roundtrip (ip port : Nat) (hip : ip < 4294967296) (hport : port < 65536) :
    xorDecodePort (xorEncodePort port) = port ∧
    xorDecodeIP (xorEncodeIP ip) = ip ∧
    MAGIC_COOKIE_HIGH = MAGIC_COOKIE >>> 16 := by
  refine ⟨?_, ?_, by decide⟩
  · have h1 : port ^^^ MAGIC_COOKIE_HIGH < 65536 := by
      have : port ^^^ MAGIC_COOKIE_HIGH < 2 ^ 16 :=
        Nat.xor_lt_two_pow (n := 16) hport (by decide)
      simpa using this
    simp [xorEncodePort, xorDecodePort, Nat.mod_eq_of_lt h1, Nat.xor_assoc]
  · have h1 : ip ^^^ MAGIC_COOKIE < 4294967296 := by
      have : ip ^^^ MAGIC_COOKIE < 2 ^ 32 :=
        Nat.xor_lt_two_pow (n := 32) hip (by decide)
      simpa using this
    have h2 : ip < 4294967296 := hip
    simp [xorEncodeIP, xorDecodeIP, Nat.mod_eq_of_lt h1, Nat.xor_assoc,
      Nat.mod_eq_of_lt h2]

/-- Witness for `xorAddress_roundtrip` at the spec's example
`203.0.113.5:41234` (ip `0xCB007105`). -/
theorem xorAddress_roundtrip_witness :
    xorDecodePort (xorEncodePort 41234) = 41234 ∧
    xorDecodeIP (xorEncodeIP 0xCB007105) = 0xCB007105 ∧
    MAGIC_COOKIE_HIGH = MAGIC_COOKIE >>> 16 :=
  xorAddress_roundtrip 0xCB007105 41234 (by decide) (by decide)

end OnlineSubsystemICE

namespace OnlineSubsystemICE

/-! ### Decimal printing and parsing

`FString::Printf` with `%d` and `FCString::Atoi` are engine routines; they
are embedded here as the usual decimal printer and a C-`atoi`-style parser
(skip whitespace, optional sign, digits until the first non-digit). -/

/-- The decimal digit character for a value `0..9`. -/
def digitChar (n : Nat) : Char :=
  if n = 0 then '0' else if n = 1 then '1' else if n = 2 then '2'
  else if n = 3 then '3' else if n = 4 then '4' else if n = 5 then '5'
  else if n = 6 then '6' else if n = 7 then '7' else if n = 8 then '8' else '9'

/-- Digits of `n`, most significant first, prepended to `acc`.  The fuel is
at least the number of digits whenever `n ≤ fuel`. -/
def natToDigitsAux : Nat → Nat → List Char → List Char
  | 0, _, acc => acc
  | fuel + 1, n, acc =>
    if n = 0 then acc else natToDigitsAux fuel (n / 10) (digitChar (n % 10) :: acc)

/-- Decimal digits of `n` (`"0"` for zero), as `%d` prints a non-negative
value. -/
def natToDigits (n : Nat) : List Char :=
  if n = 0 then ['0'] else natToDigitsAux n n []

/-- `%d` rendering of an `Int`. -/
def intToChars (i : Int) : List Char :=
  if i < 0 then '-' :: natToDigits i.natAbs else natToDigits i.natAbs

/-- Numeric value of a decimal digit character. -/
def digitVal (c : Char) : Nat := c.toNat - 48

/-- Whether `c` is a decimal digit. -/
def isDigitChar (c : Char) : Bool := 48 ≤ c.toNat && c.toNat ≤ 57

/-- Whether `c` is whitespace (the set skipped by `Atoi`). -/
def isSpaceChar (c : Char) : Bool :=
  c.toNat == 32 || c.toNat == 9 || c.toNat == 10 || c.toNat == 13

/-- The digit-consuming loop of `Atoi`: accumulates digits, stops at the
first non-digit. -/
def atoiDigits : List Char → Nat → Nat
  | [], acc => acc
  | c :: rest, acc =>
    if isDigitChar c then atoiDigits rest (acc * 10 + digitVal c) else acc

/-- `FCString::Atoi`: skip whitespace, optional sign, then digits. -/
def atoi (s : List Char) : Int :=
  match s.dropWhile isSpaceChar with
  | [] => 0
  | c :: rest =>
    if c = '-' then -(atoiDigits rest 0 : Int)
    else if c = '+' then (atoiDigits rest 0 : Int)
    else (atoiDigits (c :: rest) 0 : Int)

theorem digitChar_isDigit (n : Nat) : isDigitChar (digitChar n) = true := by
  unfold digitChar
  split_ifs <;> decide

theorem digitVal_digitChar (n : Nat) (h : n < 10) : digitVal (digitChar n) = n := by
  unfold digitChar
  split_ifs with h0 h1 h2 h3 h4 h5 h6 h7 h8
  all_goals first
    | (subst_vars; decide)
    | (have h9 : n = 9 := by omega
       subst h9; decide)

theorem isDigitChar_not_space {c : Char} (h : isDigitChar c = true) :
    isSpaceChar c = false := by
  simp only [isDigitChar, Bool.and_eq_true, decide_eq_true_eq] at h
  simp only [isSpaceChar, Bool.or_eq_false_iff, beq_eq_false_iff_ne, ne_eq]
  omega

theorem isDigitChar_ne_minus {c : Char} (h : isDigitChar c = true) : c ≠ '-' := by
  intro he
  subst he
  simp [isDigitChar] at h

theorem isDigitChar_ne_plus {c : Char} (h : isDigitChar c = true) : c ≠ '+' := by
  intro he
  subst he
  simp [isDigitChar] at h

theorem natToDigitsAux_append (fuel : Nat) :
    ∀ n acc, natToDigitsAux fuel n acc = natToDigitsAux fuel n [] ++ acc := by
  induction fuel with
  | zero => intro n acc; simp [natToDigitsAux]
  | succ fuel ih =>
    intro n acc
    by_cases h : n = 0
    · simp [natToDigitsAux, h]
    · simp only [natToDigitsAux, h, if_false]
      rw [ih (n / 10) (digitChar (n % 10) :: acc), ih (n / 10) [digitChar (n % 10)]]
      simp

theorem natToDigitsAux_all_digits (fuel : Nat) :
    ∀ n c, c ∈ natToDigitsAux fuel n [] → isDigitChar c = true := by
  induction fuel with
  | zero => intro n c hc; simp [natToDigitsAux] at hc
  | succ fuel ih =>
    intro n c hc
    by_cases h : n = 0
    · simp [natToDigitsAux, h] at hc
    · simp only [natToDigitsAux, h, if_false] at hc
      rw [natToDigitsAux_append] at hc
      rcases List.mem_append.mp hc with h1 | h1
      · exact ih _ _ h1
      · simp at h1
        subst h1
        exact digitChar_isDigit _

theorem atoiDigits_append (xs : List Char) (hxs : ∀ c ∈ xs, isDigitChar c = true) :
    ∀ ys a, atoiDigits (xs ++ ys) a = atoiDigits ys (atoiDigits xs a) := by
  induction xs with
  | nil => intro ys a; simp [atoiDigits]
  | cons c rest ih =>
    intro ys a
    have hc : isDigitChar c = true := hxs c (by simp)
    simp only [List.cons_append, atoiDigits, hc, if_true]
    exact ih (fun x hx => hxs x (by simp [hx])) ys _

theorem atoiDigits_natToDigitsAux (fuel : Nat) :
    ∀ n, n ≤ fuel → atoiDigits (natToDigitsAux fuel n []) 0 = n := by
  induction fuel with
  | zero =>
    intro n hn
    interval_cases n
    simp [natToDigitsAux, atoiDigits]
  | succ fuel ih =>
    intro n hn
    by_cases h : n = 0
    · simp [natToDigitsAux, h, atoiDigits]
    · simp only [natToDigitsAux, h, if_false]
      rw [natToDigitsAux_append]
      rw [atoiDigits_append _ (fun c hc => natToDigitsAux_all_digits _ _ _ hc)]
      have hdiv : n / 10 ≤ fuel := by omega
      rw [ih _ hdiv]
      simp [atoiDigits, digitChar_isDigit, digitVal_digitChar _ (Nat.mod_lt _ (by omega))]
      omega

theorem atoiDigits_natToDigits (n : Nat) : atoiDigits (natToDigits n) 0 = n := by
  by_cases h : n = 0
  · simp [natToDigits, h, atoiDigits, isDigitChar, digitVal]
  · simp only [natToDigits, h, if_false]
    exact atoiDigits_natToDigitsAux n n le_rfl

theorem natToDigits_ne_nil (n : Nat) : natToDigits n ≠ [] := by
  by_cases h : n = 0
  · simp [natToDigits, h]
  · simp only [natToDigits, h, if_false]
    rcases Nat.exists_eq_succ_of_ne_zero h with ⟨m, rfl⟩
    simp only [natToDigitsAux, h, if_false]
    rw [natToDigitsAux_append]
    simp

theorem natToDigits_all_digits (n : Nat) :
    ∀ c ∈ natToDigits n, isDigitChar c = true := by
  by_cases h : n = 0
  · simp [natToDigits, h]
    decide
  · simp only [natToDigits, h, if_false]
    exact fun c hc => natToDigitsAux_all_digits n n c hc

/-- Parsing inverts printing: `Atoi` applied to the `%d` rendering of an
integer recovers the integer. -/
theorem atoi_intToChars (i : Int) : atoi (intToChars i) = i := by
  by_cases h : i < 0
  · simp only [intToChars, h, if_true, atoi]
    have : isSpaceChar '-' = false := by decide
    simp only [List.dropWhile_cons, this, Bool.false_eq_true, if_false]
    simp only [if_true]
    rw [atoiDigits_natToDigits]
    omega
  · simp only [intToChars, h, if_false, atoi]
    obtain ⟨c, rest, hc⟩ := List.exists_cons_of_ne_nil (natToDigits_ne_nil i.natAbs)
    have hdig : isDigitChar c = true := by
      apply natToDigits_all_digits
      rw [hc]; simp
    rw [hc]
    simp only [List.dropWhile_cons, isDigitChar_not_space hdig, Bool.false_eq_true, if_false]
    rw [if_neg (isDigitChar_ne_minus hdig), if_neg (isDigitChar_ne_plus hdig)]
    rw [← hc, atoiDigits_natToDigits]
    omega

end OnlineSubsystemICE

namespace OnlineSubsystemICE

/-! ### Tokenisation

`FString::ParseIntoArray(Parts, TEXT(" "))` splits on single spaces and, with
its default `InCullEmpty = true`, discards empty tokens. -/

/-- Worker for `splitSpace`: `cur` holds the current token, reversed. -/
def splitSpaceAux : List Char → List Char → List (List Char)
  | [], cur => if cur = [] then [] else [cur.reverse]
  | c :: rest, cur =>
    if c = ' ' then
      if cur = [] then splitSpaceAux rest []
      else cur.reverse :: splitSpaceAux rest []
    else splitSpaceAux rest (c :: cur)

/-- `ParseIntoArray` on the delimiter `" "` with empty tokens culled. -/
def splitSpace (s : List Char) : List (List Char) := splitSpaceAux s []

theorem splitSpaceAux_token (tok : List Char) (htok : ∀ c ∈ tok, c ≠ ' ') :
    ∀ l cur, splitSpaceAux (tok ++ l) cur = splitSpaceAux l (tok.reverse ++ cur) := by
  induction tok with
  | nil => intro l cur; simp
  | cons c rest ih =>
    intro l cur
    have hc : c ≠ ' ' := htok c (by simp)
    simp only [List.cons_append, splitSpaceAux, hc, if_false, List.append_eq]
    rw [ih (fun x hx => htok x (by simp [hx])) l (c :: cur)]
    simp

theorem splitSpaceAux_space (l : List Char) (cur : List Char) (hcur : cur ≠ []) :
    splitSpaceAux (' ' :: l) cur = cur.reverse :: splitSpaceAux l [] := by
  simp [splitSpaceAux, hcur]

theorem splitSpaceAux_nil (cur : List Char) (hcur : cur ≠ []) :
    splitSpaceAux [] cur = [cur.reverse] := by
  simp [splitSpaceAux, hcur]

/-- Splitting a nonempty, space-free token followed by a space. -/
theorem splitSpace_token_cons (tok : List Char) (l : List Char)
    (hne : tok ≠ []) (htok : ∀ c ∈ tok, c ≠ ' ') :
    splitSpaceAux (tok ++ ' ' :: l) [] = tok :: splitSpaceAux l [] := by
  rw [splitSpaceAux_token tok htok (' ' :: l) [], List.append_nil]
  rw [splitSpaceAux_space l tok.reverse (by simpa using hne)]
  simp

/-- Splitting a final nonempty, space-free token. -/
theorem splitSpace_token_last (tok : List Char)
    (hne : tok ≠ []) (htok : ∀ c ∈ tok, c ≠ ' ') :
    splitSpaceAux tok [] = [tok] := by
  have h := splitSpaceAux_token tok htok [] []
  rw [List.append_nil, List.append_nil] at h
  rw [h, splitSpaceAux_nil tok.reverse (by simpa using hne)]
  simp

/-- An ICE candidate (`FICECandidate`).  The `Type` field is called `Typ`
because `Type` is reserved in Lean; strings are `List Char`, `int32` fields
are `Int`. -/
structure FICECandidate where
  Foundation : List Char
  ComponentId : Int
  Transport : List Char
  Priority : Int
  Address : List Char
  Port : Int
  Typ : EICECandidateType
  RelatedAddress : List Char
  RelatedPort : Int
deriving DecidableEq, Repr

/-- The default constructor `FICECandidate::FICECandidate()`: empty strings,
`ComponentId = 0`, `Transport = "UDP"`, `Priority = 0`, `Port = 0`,
`Type = Host`, `RelatedPort = 0`. -/
def FICECandidate.default : FICECandidate :=
  { Foundation := []
    ComponentId := 0
    Transport := "UDP".data
    Priority := 0
    Address := []
    Port := 0
    Typ := .Host
    RelatedAddress := []
    RelatedPort := 0 }

/-- The type token emitted by `FICECandidate::ToString`:
`host`, `srflx` or `relay`. -/
def candTypeName : EICECandidateType → List Char
  | .Host => "host".data
  | .ServerReflexive => "srflx".data
  | .Relayed => "relay".data

/-- `FICECandidate::ToString`:
`"candidate:%s %d %s %d %s %d typ %s"` with the type rendered as
`host`/`srflx`/`relay`. -/
def FICECandidate.ToString (c : FICECandidate) : List Char :=
  "candidate:".data ++ c.Foundation
    ++ [' '] ++ intToChars c.ComponentId
    ++ [' '] ++ c.Transport
    ++ [' '] ++ intToChars c.Priority
    ++ [' '] ++ c.Address
    ++ [' '] ++ intToChars c.Port
    ++ " typ ".data
    ++ candTypeName c.Typ

/-- `FICECandidate::FromString`: strip one optional `candidate:` tag
(`RightChop(10)`), split on spaces, and if at least 8 tokens resulted assign
`Foundation`, `ComponentId`, `Transport`, `Priority`, `Address`, `Port`
from tokens 0-5 and the type from token 7 when token 6 is `typ`; every
other field keeps its default-constructed value. -/
def FICECandidate.FromString (CandidateString : List Char) : FICECandidate :=
  let ParseString :=
    if CandidateString.take 10 = "candidate:".data
    then CandidateString.drop 10 else CandidateString
  let Parts := splitSpace ParseString
  if Parts.length ≥ 8 then
    let c : FICECandidate :=
      { FICECandidate.default with
        Foundation := Parts.getD 0 []
        ComponentId := atoi (Parts.getD 1 [])
        Transport := Parts.getD 2 []
        Priority := atoi (Parts.getD 3 [])
        Address := Parts.getD 4 []
        Port := atoi (Parts.getD 5 []) }
    if Parts.getD 6 [] = "typ".data then
      if Parts.getD 7 [] = "host".data then { c with Typ := .Host }
      else if Parts.getD 7 [] = "srflx".data then { c with Typ := .ServerReflexive }
      else if Parts.getD 7 [] = "relay".data then { c with Typ := .Relayed }
      else c
    else c
  else FICECandidate.default

end OnlineSubsystemICE

namespace OnlineSubsystemICE

theorem isDigitChar_ne_space {c : Char} (h : isDigitChar c = true) : c ≠ ' ' := by
  intro he
  subst he
  simp [isDigitChar] at h

theorem intToChars_ne_nil (i : Int) : intToChars i ≠ [] := by
  unfold intToChars
  split_ifs
  · simp
  · exact natToDigits_ne_nil _

theorem intToChars_no_space (i : Int) : ∀ ch ∈ intToChars i, ch ≠ ' ' := by
  intro ch hch
  unfold intToChars at hch
  split_ifs at hch
  · rcases List.mem_cons.mp hch with h | h
    · subst h; decide
    · exact isDigitChar_ne_space (natToDigits_all_digits _ _ h)
  · exact isDigitChar_ne_space (natToDigits_all_digits _ _ hch)

theorem candTypeName_ne_nil (t : EICECandidateType) : candTypeName t ≠ [] := by
  cases t <;> decide

theorem candTypeName_no_space (t : EICECandidateType) :
    ∀ ch ∈ candTypeName t, ch ≠ ' ' := by
  cases t <;> decide

/-- Splitting the tail of a candidate's textual form after its first token. -/
theorem splitSpaceAux_candidate_tail (c : FICECandidate)
    (hT1 : c.Transport ≠ []) (hT2 : ∀ ch ∈ c.Transport, ch ≠ ' ')
    (hA1 : c.Address ≠ []) (hA2 : ∀ ch ∈ c.Address, ch ≠ ' ') :
    splitSpaceAux (intToChars c.ComponentId ++ ' ' :: (c.Transport ++ ' ' ::
      (intToChars c.Priority ++ ' ' :: (c.Address ++ ' ' ::
      (intToChars c.Port ++ ' ' :: ("typ".data ++ ' ' :: candTypeName c.Typ)))))) [] =
    [intToChars c.ComponentId, c.Transport, intToChars c.Priority, c.Address,
     intToChars c.Port, "typ".data, candTypeName c.Typ] := by
  rw [splitSpace_token_cons _ _ (intToChars_ne_nil _) (intToChars_no_space _)]
  rw [splitSpace_token_cons _ _ hT1 hT2]
  rw [splitSpace_token_cons _ _ (intToChars_ne_nil _) (intToChars_no_space _)]
  rw [splitSpace_token_cons _ _ hA1 hA2]
  rw [splitSpace_token_cons _ _ (intToChars_ne_nil _) (intToChars_no_space _)]
  rw [splitSpace_token_cons _ _ (by decide) (by decide)]
  rw [splitSpace_token_last _ (candTypeName_ne_nil _) (candTypeName_no_space _)]

end OnlineSubsystemICE

namespace OnlineSubsystemICE

/-- A well-formed candidate: the three string fields are nonempty and
space-free (so the emitted text tokenises back into the same fields), and
the related-address fields hold their default values (`ToString` never
emits them, so they cannot survive any round trip). -/
def WellFormed (c : FICECandidate) : Prop :=
  c.Foundation ≠ [] ∧ (∀ ch ∈ c.Foundation, ch ≠ ' ') ∧
  c.Transport ≠ [] ∧ (∀ ch ∈ c.Transport, ch ≠ ' ') ∧
  c.Address ≠ [] ∧ (∀ ch ∈ c.Address, ch ≠ ' ') ∧
  c.RelatedAddress = [] ∧ c.RelatedPort = 0

instance (c : FICECandidate) : Decidable (WellFormed c) := by
  unfold WellFormed
  infer_instance

/-- `ToString` in fully right-associated form. -/
theorem toString_assoc (c : FICECandidate) :
    FICECandidate.ToString c =
      "candidate:".data ++ (c.Foundation ++ ' ' :: (intToChars c.ComponentId ++ ' ' ::
        (c.Transport ++ ' ' :: (intToChars c.Priority ++ ' ' :: (c.Address ++ ' ' ::
        (intToChars c.Port ++ ' ' :: ("typ".data ++ ' ' :: candTypeName c.Typ))))))) := by
  simp [FICECandidate.ToString, List.append_assoc]

/-- Evaluation of `FromString` when the (stripped) input tokenises into
exactly eight tokens whose seventh is `typ` and whose eighth is a type
name. -/
theorem fromString_eight (s : List Char) (t0 t1 t2 t3 t4 t5 : List Char)
    (ty7 : EICECandidateType)
    (hsplit : splitSpace (if s.take 10 = "candidate:".data then s.drop 10 else s) =
      [t0, t1, t2, t3, t4, t5, "typ".data, candTypeName ty7]) :
    FICECandidate.FromString s =
      { FICECandidate.default with
        Foundation := t0
        ComponentId := atoi t1
        Transport := t2
        Priority := atoi t3
        Address := t4
        Port := atoi t5
        Typ := ty7 } := by
  cases ty7 <;>
    simp [FICECandidate.FromString, hsplit, candTypeName, List.getD]

/-- Tokenisation of the text emitted for a well-formed candidate. -/
theorem splitSpace_toString_stripped (c : FICECandidate)
    (hF1 : c.Foundation ≠ []) (hF2 : ∀ ch ∈ c.Foundation, ch ≠ ' ')
    (hT1 : c.Transport ≠ []) (hT2 : ∀ ch ∈ c.Transport, ch ≠ ' ')
    (hA1 : c.Address ≠ []) (hA2 : ∀ ch ∈ c.Address, ch ≠ ' ') :
    splitSpace (if (FICECandidate.ToString c).take 10 = "candidate:".data
      then (FICECandidate.ToString c).drop 10 else FICECandidate.ToString c) =
    [c.Foundation, intToChars c.ComponentId, c.Transport, intToChars c.Priority,
     c.Address, intToChars c.Port, "typ".data, candTypeName c.Typ] := by
  rw [toString_assoc c]
  rw [List.take_left' (by rfl), if_pos rfl, List.drop_left' (by rfl)]
  unfold splitSpace
  rw [splitSpace_token_cons _ _ hF1 hF2]
  rw [splitSpaceAux_candidate_tail c hT1 hT2 hA1 hA2]

/-- Tokenisation after a second `candidate:` tag is prepended: only one tag
is stripped, so the first token keeps the remaining tag glued to the
foundation. -/
theorem splitSpace_toString_tagged (c : FICECandidate)
    (hF2 : ∀ ch ∈ c.Foundation, ch ≠ ' ')
    (hT1 : c.Transport ≠ []) (hT2 : ∀ ch ∈ c.Transport, ch ≠ ' ')
    (hA1 : c.Address ≠ []) (hA2 : ∀ ch ∈ c.Address, ch ≠ ' ') :
    splitSpace (if ("candidate:".data ++ FICECandidate.ToString c).take 10 = "candidate:".data
      then ("candidate:".data ++ FICECandidate.ToString c).drop 10
      else "candidate:".data ++ FICECandidate.ToString c) =
    ["candidate:".data ++ c.Foundation, intToChars c.ComponentId, c.Transport,
     intToChars c.Priority, c.Address, intToChars c.Port, "typ".data,
     candTypeName c.Typ] := by
  rw [List.take_left' (by rfl), if_pos rfl, List.drop_left' (by rfl)]
  rw [toString_assoc c, ← List.append_assoc]
  unfold splitSpace
  have htag : ∀ ch ∈ "candidate:".data, ch ≠ ' ' := by decide
  rw [splitSpace_token_cons _ _ (by simp) ?hmem]
  case hmem =>
    intro ch hch
    rcases List.mem_append.mp hch with h | h
    · exact htag ch h
    · exact hF2 ch h
  rw [splitSpaceAux_candidate_tail c hT1 hT2 hA1 hA2]

end OnlineSubsystemICE

namespace OnlineSubsystemICE

/-- **C3 (counterexample).** The claim `FromString ("candidate:" ++ ToString c) = c`
fails: `ToString` already emits the `candidate:` tag, `FromString` strips
only one copy, and the leftover tag is glued onto the parsed foundation. -/
theorem candidate_prefixed_roundtrip_fails :
    FICECandidate.FromString
        ("candidate:".data ++ FICECandidate.ToString
          { Foundation := "1".data
            ComponentId := 1
            Transport := "UDP".data
            Priority := 100
            Address := "1.2.3.4".data
            Port := 9
            Typ := .Host
            RelatedAddress := []
            RelatedPort := 0 }) ≠
      { Foundation := "1".data
        ComponentId := 1
        Transport := "UDP".data
        Priority := 100
        Address := "1.2.3.4".data
        Port := 9
        Typ := .Host
        RelatedAddress := []
        RelatedPort := 0 } := by
  decide

/-- **C3 (amended).** For every well-formed candidate `c` (nonempty,
space-free string fields and default related-address fields):
`FromString (ToString c) = c`; and parsing `"candidate:"` prepended to
`ToString c` yields `c` with its foundation replaced by
`"candidate:" ++ c.Foundation` (only one tag is stripped and `ToString`
already emits one), not `c` itself. -/
theorem candidate_string_roundtrip (c : FICECandidate) (h : WellFormed c) :
    FICECandidate.FromString (FICECandidate.ToString c) = c ∧
    FICECandidate.FromString ("candidate:".data ++ FICECandidate.ToString c) =
      { c with Foundation := "candidate:".data ++ c.Foundation } := by
  obtain ⟨hF1, hF2, hT1, hT2, hA1, hA2, hRA, hRP⟩ := h
  constructor
  · rw [fromString_eight (FICECandidate.ToString c) c.Foundation
      (intToChars c.ComponentId) c.Transport (intToChars c.Priority) c.Address
      (intToChars c.Port) c.Typ
      (splitSpace_toString_stripped c hF1 hF2 hT1 hT2 hA1 hA2)]
    rcases c with ⟨F, cid, T, prio, A, port, ty, RA, RP⟩
    simp_all [FICECandidate.default, atoi_intToChars]
  · rw [fromString_eight ("candidate:".data ++ FICECandidate.ToString c)
      ("candidate:".data ++ c.Foundation)
      (intToChars c.ComponentId) c.Transport (intToChars c.Priority) c.Address
      (intToChars c.Port) c.Typ
      (splitSpace_toString_tagged c hF2 hT1 hT2 hA1 hA2)]
    rcases c with ⟨F, cid, T, prio, A, port, ty, RA, RP⟩
    simp_all [FICECandidate.default, atoi_intToChars]

/-- Witness for `candidate_string_roundtrip` at a concrete well-formed
candidate. -/
theorem candidate_string_roundtrip_witness :
    FICECandidate.FromString (FICECandidate.ToString
      { Foundation := "1".data
        ComponentId := 1
        Transport := "UDP".data
        Priority := 100
        Address := "1.2.3.4".data
        Port := 9
        Typ := .Host
        RelatedAddress := []
        RelatedPort := 0 }) =
      { Foundation := "1".data
        ComponentId := 1
        Transport := "UDP".data
        Priority := 100
        Address := "1.2.3.4".data
        Port := 9
        Typ := .Host
        RelatedAddress := []
        RelatedPort := 0 } ∧
    FICECandidate.FromString ("candidate:".data ++ FICECandidate.ToString
      { Foundation := "1".data
        ComponentId := 1
        Transport := "UDP".data
        Priority := 100
        Address := "1.2.3.4".data
        Port := 9
        Typ := .Host
        RelatedAddress := []
        RelatedPort := 0 }) =
      { Foundation := "candidate:1".data
        ComponentId := 1
        Transport := "UDP".data
        Priority := 100
        Address := "1.2.3.4".data
        Port := 9
        Typ := .Host
        RelatedAddress := []
        RelatedPort := 0 } :=
  candidate_string_roundtrip
    { Foundation := "1".data
      ComponentId := 1
      Transport := "UDP".data
      Priority := 100
      Address := "1.2.3.4".data
      Port := 9
      Typ := .Host
      RelatedAddress := []
      RelatedPort := 0 }
    (by decide)

end OnlineSubsystemICE

namespace OnlineSubsystemICE

/-- **C10.** `FICECandidate::FromString` is total and never reports failure:
with fewer than 8 space-separated tokens (after stripping one optional
`candidate:` tag) it returns the default-constructed candidate (empty
`Foundation`, `ComponentId` 0, `Transport` `"UDP"`, `Priority` 0, `Port` 0,
`Type` `Host`); and with at least 8 tokens whose type token is none of
`host`/`srflx`/`relay` the `Type` field is left at its default `Host`. -/
theorem fromString_total_defaults (s t : List Char)
    (hs : (splitSpace (if s.take 10 = "candidate:".data then s.drop 10 else s)).length < 8)
    (ht8 : 8 ≤ (splitSpace (if t.take 10 = "candidate:".data then t.drop 10 else t)).length)
    (ht1 : (splitSpace (if t.take 10 = "candidate:".data then t.drop 10 else t)).getD 7 []
      ≠ "host".data)
    (ht2 : (splitSpace (if t.take 10 = "candidate:".data then t.drop 10 else t)).getD 7 []
      ≠ "srflx".data)
    (ht3 : (splitSpace (if t.take 10 = "candidate:".data then t.drop 10 else t)).getD 7 []
      ≠ "relay".data) :
    FICECandidate.FromString s =
      { Foundation := []
        ComponentId := 0
        Transport := "UDP".data
        Priority := 0
        Address := []
        Port := 0
        Typ := .Host
        RelatedAddress := []
        RelatedPort := 0 } ∧
    (FICECandidate.FromString t).Typ = .Host := by
  constructor
  · have hs' : ¬ (splitSpace (if s.take 10 = "candidate:".data
        then s.drop 10 else s)).length ≥ 8 := by omega
    simp only [FICECandidate.FromString]
    rw [if_neg hs']
    rfl
  · simp only [FICECandidate.FromString]
    set u := if List.take 10 t = "candidate:".data then List.drop 10 t else t with hu
    split_ifs <;> simp_all [FICECandidate.default]

/-- Witness for `fromString_total_defaults`: `"a b"` has two tokens;
`"f 1 UDP 2 9.9.9.9 3 typ bogus"` has eight with an unknown type token. -/
theorem fromString_total_defaults_witness :
    FICECandidate.FromString "a b".data =
      { Foundation := []
        ComponentId := 0
        Transport := "UDP".data
        Priority := 0
        Address := []
        Port := 0
        Typ := .Host
        RelatedAddress := []
        RelatedPort := 0 } ∧
    (FICECandidate.FromString "f 1 UDP 2 9.9.9.9 3 typ bogus".data).Typ = .Host :=
  fromString_total_defaults "a b".data "f 1 UDP 2 9.9.9.9 3 typ bogus".data
    (by decide) (by decide) (by decide) (by decide) (by decide)

end OnlineSubsystemICE

namespace OnlineSubsystemICE

/-! ### TURN Allocate request construction

`FICEAgent::PerformTURNAllocationRequest` (request-building half, source
lines 510-657).  The 512-byte scratch buffer is embedded as the list of
bytes written, since the buffer is truncated to the written length
(`SetNum(Offset)`) before sending.  `FMD5` and `FSHA1` are engine code, so
`md5` and `hmacSha1` are abstract byte functions supplied by the caller;
`CalculateHMACSHA1` always produces 20 bytes, which theorems state as a
hypothesis on `hmacSha1`. -/

/-- The `while (Offset % 4 != 0) TURNRequest[Offset++] = 0x00;` padding loop. -/
def pad4 (msg : List Nat) : List Nat :=
  msg ++ List.replicate ((4 - msg.length % 4) % 4) 0

/-- Write a 16-bit big-endian length into header bytes 2 and 3
(`TURNRequest[LengthOffset] = (L >> 8) & 0xFF; TURNRequest[LengthOffset+1] = L & 0xFF;`). -/
def setLen (msg : List Nat) (len : Nat) : List Nat :=
  (msg.set 2 ((len >>> 8) % 256)).set 3 (len % 256)

/-- The Allocate request up to and including the padded USERNAME attribute:
header (type `0x0003`, zero length placeholder, magic cookie, transaction
id), REQUESTED-TRANSPORT = 17 (UDP), USERNAME.  Each string byte store
truncates to `uint8`. -/
def allocRequestUserPart (Username TransactionID : List Nat) : List Nat :=
  pad4 ([0x00, 0x03, 0x00, 0x00, 0x21, 0x12, 0xA4, 0x42]
    ++ TransactionID.map (· % 256)
    ++ [0x00, 0x19, 0x00, 0x04, 17, 0x00, 0x00, 0x00]
    ++ [0x00, 0x06, (Username.length >>> 8) % 256, Username.length % 256]
    ++ Username.map (· % 256))

/-- The authenticated Allocate request body up to the MESSAGE-INTEGRITY
attribute: USERNAME part, then padded REALM and NONCE attributes.  Its
length is `MessageIntegrityOffset`. -/
def allocRequestAuthBody (Username Realm Nonce TransactionID : List Nat) : List Nat :=
  pad4 (pad4 (allocRequestUserPart Username TransactionID
      ++ [0x00, 0x14, (Realm.length >>> 8) % 256, Realm.length % 256]
      ++ Realm.map (· % 256))
    ++ [0x00, 0x15, (Nonce.length >>> 8) % 256, Nonce.length % 256]
    ++ Nonce.map (· % 256))

/-- `KeyString = Username + ":" + Realm + ":" + Credential`. -/
def allocKeyString (Username Realm Credential : List Nat) : List Nat :=
  Username ++ [0x3A] ++ Realm ++ [0x3A] ++ Credential

/-- The message over which MESSAGE-INTEGRITY is computed: everything before
the MESSAGE-INTEGRITY attribute, with the header length field already
rewritten to `MessageIntegrityOffset - 20 + MESSAGE_INTEGRITY_ATTR_SIZE`
(the bytes of the placeholder lie beyond `MessageIntegrityOffset` and are
not part of the HMAC input). -/
def allocIntegrityInput (Username Realm Nonce TransactionID : List Nat) : List Nat :=
  setLen (allocRequestAuthBody Username Realm Nonce TransactionID)
    ((allocRequestAuthBody Username Realm Nonce TransactionID).length - 20
      + MESSAGE_INTEGRITY_ATTR_SIZE)

/-- `FICEAgent::PerformTURNAllocationRequest`, request construction.  With
empty `Realm` or `Nonce` the header length is set to the total attribute
bytes; otherwise the MESSAGE-INTEGRITY attribute is appended, the header
length is set to `MessageIntegrityOffset - 20 + 24` *before* the HMAC is
computed over the bytes preceding the MESSAGE-INTEGRITY attribute, the
20-byte HMAC is copied into the placeholder, and the length field is not
touched again. -/
def buildAllocateRequest (Username Realm Nonce Credential TransactionID : List Nat)
    (md5 : List Nat → List Nat) (hmacSha1 : List Nat → List Nat → List Nat) :
    List Nat :=
  if Realm ≠ [] ∧ Nonce ≠ [] then
    let body := allocRequestAuthBody Username Realm Nonce TransactionID
    let MessageIntegrityOffset := body.length
    let withPlaceholder := body ++ [0x00, 0x08, 0x00, 0x14] ++ List.replicate 20 0
    let MessageLengthForIntegrity :=
      MessageIntegrityOffset - 20 + MESSAGE_INTEGRITY_ATTR_SIZE
    let adjusted := setLen withPlaceholder MessageLengthForIntegrity
    let KeyMD5 := md5 (allocKeyString Username Realm Credential)
    let HMAC := hmacSha1 (adjusted.take MessageIntegrityOffset) KeyMD5
    adjusted.take (MessageIntegrityOffset + 4) ++ (HMAC.map (· % 256)).take 20
  else
    let afterUsername := allocRequestUserPart Username TransactionID
    setLen afterUsername (afterUsername.length - 20)

theorem pad4_length (l : List Nat) : (pad4 l).length = l.length + (4 - l.length % 4) % 4 := by
  simp [pad4]

theorem pad4_length_ge (l : List Nat) : l.length ≤ (pad4 l).length := by
  rw [pad4_length]
  omega

theorem allocRequestAuthBody_length_ge (Username Realm Nonce TransactionID : List Nat)
    (htid : TransactionID.length = 12) :
    32 ≤ (allocRequestAuthBody Username Realm Nonce TransactionID).length := by
  unfold allocRequestAuthBody allocRequestUserPart
  simp only [pad4_length, List.length_append, List.length_map, List.length_cons,
    List.length_nil, htid]
  omega

end OnlineSubsystemICE

namespace OnlineSubsystemICE

theorem setLen_length (l : List Nat) (L : Nat) : (setLen l L).length = l.length := by
  simp [setLen]

theorem setLen_append (l1 l2 : List Nat) (L : Nat) (h : 4 ≤ l1.length) :
    setLen (l1 ++ l2) L = setLen l1 L ++ l2 := by
  unfold setLen
  rw [List.set_append_left _ _ (by omega),
    List.set_append_left _ _ (by simp only [List.length_set]; omega)]

theorem setLen_getD_2 (l : List Nat) (L : Nat) (h : 4 ≤ l.length) :
    (setLen l L).getD 2 0 = (L >>> 8) % 256 := by
  unfold setLen
  rw [List.getD_eq_getElem?_getD, List.getElem?_set_ne (by omega),
    List.getElem?_set_self (by omega)]
  rfl

theorem setLen_getD_3 (l : List Nat) (L : Nat) (h : 4 ≤ l.length) :
    (setLen l L).getD 3 0 = L % 256 := by
  unfold setLen
  rw [List.getD_eq_getElem?_getD,
    List.getElem?_set_self (by simp only [List.length_set]; omega)]
  rfl


end OnlineSubsystemICE

namespace OnlineSubsystemICE

theorem allocIntegrityInput_length (U R N tid : List Nat) :
    (allocIntegrityInput U R N tid).length = (allocRequestAuthBody U R N tid).length := by
  simp [allocIntegrityInput, setLen_length]

theorem buildAllocateRequest_auth_eq
    (U R N C tid : List Nat) (md5 : List Nat → List Nat)
    (hmacSha1 : List Nat → List Nat → List Nat)
    (hr : R ≠ []) (hn : N ≠ []) (htid : tid.length = 12) :
    buildAllocateRequest U R N C tid md5 hmacSha1 =
      allocIntegrityInput U R N tid ++ ([0x00, 0x08, 0x00, 0x14] ++
        ((hmacSha1 (allocIntegrityInput U R N tid)
          (md5 (allocKeyString U R C))).map (· % 256)).take 20) := by
  have hbody := allocRequestAuthBody_length_ge U R N tid htid
  simp only [buildAllocateRequest]
  rw [if_pos ⟨hr, hn⟩]
  rw [List.append_assoc]
  rw [setLen_append _ _ _ (by omega)]
  set B := allocRequestAuthBody U R N tid with hB
  set L := B.length - 20 + MESSAGE_INTEGRITY_ATTR_SIZE with hL
  set S := setLen B L with hS
  have hSlen : S.length = B.length := setLen_length B L
  have e1 : List.take (B.length + 4) (S ++ ([0, 8, 0, 20] ++ List.replicate 20 0))
      = S ++ [0, 8, 0, 20] := by
    rw [List.take_append_eq_append_take,
      List.take_of_length_le (by omega), hSlen]
    have h4 : B.length + 4 - B.length = 4 := by omega
    rw [h4]
    rfl
  have e2 : List.take B.length (S ++ ([0, 8, 0, 20] ++ List.replicate 20 0)) = S := by
    rw [List.take_append_of_le_length (by omega),
      List.take_of_length_le (by omega)]
  rw [e1, e2, List.append_assoc]
  rfl

end OnlineSubsystemICE

namespace OnlineSubsystemICE

/-- **C1.** In an authenticated Allocate request (nonempty REALM and NONCE),
with `mi` the offset of the MESSAGE-INTEGRITY attribute
(`(allocRequestAuthBody …).length`): the message is `mi + 24` bytes; its
first `mi` bytes are exactly the HMAC input (all bytes preceding the
MESSAGE-INTEGRITY attribute, with the header MessageLength field already
rewritten to `(mi - 20) + 24` — the offset of MESSAGE-INTEGRITY from the
end of the 20-byte header plus 24); the rest of the message is the
attribute header `00 08 00 14` followed by the 20-byte HMAC of that very
prefix; and the MessageLength bytes of the final sent message still encode
`(mi - 20) + 24` — the field is never rewritten after the HMAC is
inserted.  (Per RFC 5389 §15.4 the HMAC input stops before the
MESSAGE-INTEGRITY attribute, so in particular the 20-byte placeholder is
not covered.) -/
theorem allocateRequest_integrity
    (Username Realm Nonce Credential TransactionID : List Nat)
    (md5 : List Nat → List Nat) (hmacSha1 : List Nat → List Nat → List Nat)
    (hr : Realm ≠ []) (hn : Nonce ≠ []) (htid : TransactionID.length = 12)
    (hlen : (hmacSha1 (allocIntegrityInput Username Realm Nonce TransactionID)
      (md5 (allocKeyString Username Realm Credential))).length = 20)
    (hbytes : ∀ b ∈ hmacSha1 (allocIntegrityInput Username Realm Nonce TransactionID)
      (md5 (allocKeyString Username Realm Credential)), b < 256) :
    (buildAllocateRequest Username Realm Nonce Credential TransactionID md5 hmacSha1).length
      = (allocRequestAuthBody Username Realm Nonce TransactionID).length + 24 ∧
    (buildAllocateRequest Username Realm Nonce Credential TransactionID md5 hmacSha1).take
        (allocRequestAuthBody Username Realm Nonce TransactionID).length
      = allocIntegrityInput Username Realm Nonce TransactionID ∧
    (buildAllocateRequest Username Realm Nonce Credential TransactionID md5 hmacSha1).drop
        (allocRequestAuthBody Username Realm Nonce TransactionID).length
      = [0x00, 0x08, 0x00, 0x14] ++
        hmacSha1
          ((buildAllocateRequest Username Realm Nonce Credential TransactionID md5
            hmacSha1).take
              (allocRequestAuthBody Username Realm Nonce TransactionID).length)
          (md5 (allocKeyString Username Realm Credential)) ∧
    (buildAllocateRequest Username Realm Nonce Credential TransactionID md5 hmacSha1).getD 2 0
      = ((((allocRequestAuthBody Username Realm Nonce TransactionID).length - 20)
          + MESSAGE_INTEGRITY_ATTR_SIZE) >>> 8) % 256 ∧
    (buildAllocateRequest Username Realm Nonce Credential TransactionID md5 hmacSha1).getD 3 0
      = (((allocRequestAuthBody Username Realm Nonce TransactionID).length - 20)
          + MESSAGE_INTEGRITY_ATTR_SIZE) % 256 := by
  have hbody := allocRequestAuthBody_length_ge Username Realm Nonce TransactionID htid
  have hIlen := allocIntegrityInput_length Username Realm Nonce TransactionID
  have hH : ((hmacSha1 (allocIntegrityInput Username Realm Nonce TransactionID)
      (md5 (allocKeyString Username Realm Credential))).map (· % 256)).take 20
      = hmacSha1 (allocIntegrityInput Username Realm Nonce TransactionID)
        (md5 (allocKeyString Username Realm Credential)) := by
    rw [List.map_congr_left (g := fun a : Nat => a)
        (fun b hb => Nat.mod_eq_of_lt (hbytes b hb)),
      List.map_id', List.take_of_length_le (le_of_eq hlen)]
  have hmsg : buildAllocateRequest Username Realm Nonce Credential TransactionID md5 hmacSha1
      = allocIntegrityInput Username Realm Nonce TransactionID ++
        ([0x00, 0x08, 0x00, 0x14] ++
          hmacSha1 (allocIntegrityInput Username Realm Nonce TransactionID)
            (md5 (allocKeyString Username Realm Credential))) := by
    rw [buildAllocateRequest_auth_eq Username Realm Nonce Credential TransactionID md5
      hmacSha1 hr hn htid, hH]
  have htake : (buildAllocateRequest Username Realm Nonce Credential TransactionID md5
      hmacSha1).take (allocRequestAuthBody Username Realm Nonce TransactionID).length
      = allocIntegrityInput Username Realm Nonce TransactionID := by
    rw [hmsg, List.take_append_of_le_length (le_of_eq hIlen.symm),
      List.take_of_length_le (le_of_eq hIlen)]
  refine ⟨?_, htake, ?_, ?_, ?_⟩
  · rw [hmsg]
    simp only [List.length_append, hIlen, hlen, List.length_cons, List.length_nil]
  · rw [htake, hmsg, List.drop_left' hIlen]
  · rw [hmsg, List.getD_eq_getElem?_getD, List.getElem?_append_left (by omega),
      ← List.getD_eq_getElem?_getD]
    simp only [allocIntegrityInput]
    exact setLen_getD_2 _ _ (by omega)
  · rw [hmsg, List.getD_eq_getElem?_getD, List.getElem?_append_left (by omega),
      ← List.getD_eq_getElem?_getD]
    simp only [allocIntegrityInput]
    exact setLen_getD_3 _ _ (by omega)

end OnlineSubsystemICE

namespace OnlineSubsystemICE

/-- Witness for `allocateRequest_integrity` at concrete one-byte
credentials, a fixed transaction id, and constant stand-ins for the
engine's MD5/HMAC-SHA1. -/
theorem allocateRequest_integrity_witness :
    (([0x72] : List Nat) ≠ [] ∧ ([0x6E] : List Nat) ≠ [] ∧
      (List.replicate 12 1 : List Nat).length = 12 ∧
      ((fun (_ : List Nat) (_ : List Nat) => List.replicate 20 5)
        (allocIntegrityInput [0x75] [0x72] [0x6E] (List.replicate 12 1))
        ((fun (_ : List Nat) => List.replicate 16 0)
          (allocKeyString [0x75] [0x72] [0x70]))).length = 20) ∧
    (buildAllocateRequest [0x75] [0x72] [0x6E] [0x70] (List.replicate 12 1)
        (fun _ => List.replicate 16 0) (fun _ _ => List.replicate 20 5)).length
      = (allocRequestAuthBody [0x75] [0x72] [0x6E] (List.replicate 12 1)).length + 24 :=
  ⟨⟨by decide, by decide, by decide, by decide⟩,
    (allocateRequest_integrity [0x75] [0x72] [0x6E] [0x70] (List.replicate 12 1)
      (fun _ => List.replicate 16 0) (fun _ _ => List.replicate 20 5)
      (by decide) (by decide) (by decide) (by decide)
      (by intro b hb; simp only [List.eq_of_mem_replicate hb]; omega)).1⟩

end OnlineSubsystemICE

namespace OnlineSubsystemICE

/-- `(AttrLength + 3) & ~3`: the attribute stride rounded up to a 4-byte
boundary. -/
def pad4len (n : Nat) : Nat := (n + 3) / 4 * 4

/-- Attribute walk of a TURN Allocate error response (type `0x0113`), source
lines 768-826: accumulates `(ErrorCode, ErrorRealm, ErrorNonce)`.
ERROR-CODE (`0x0009`, length ≥ 4) yields `(class & 0x07) * 100 + number`;
REALM (`0x0014`) and NONCE (`0x0015`) append their value bytes.  The walk
stops when fewer than 4 header bytes remain or an attribute value would
overrun `bytesRead`.  `fuel` starts at `bytesRead`; the offset grows by at
least 4 per iteration, so fuel cannot run out before the loop condition
fails. -/
def parseAllocErrorAttrs (resp : List Nat) (bytesRead : Nat) :
    Nat → Nat → Nat × List Nat × List Nat → Nat × List Nat × List Nat
  | 0, _, acc => acc
  | fuel + 1, AttrOffset, acc =>
    if AttrOffset < bytesRead then
      if AttrOffset + 4 > bytesRead then acc
      else
        let AttrType := (resp.getD AttrOffset 0) <<< 8 ||| resp.getD (AttrOffset + 1) 0
        let AttrLength := (resp.getD (AttrOffset + 2) 0) <<< 8 ||| resp.getD (AttrOffset + 3) 0
        if AttrOffset + 4 + AttrLength > bytesRead then acc
        else
          let acc2 :=
            if AttrType = 0x0009 ∧ AttrLength ≥ 4 then
              (((resp.getD (AttrOffset + 4 + 2) 0) &&& 0x07) * 100
                  + resp.getD (AttrOffset + 4 + 3) 0,
                acc.2.1, acc.2.2)
            else if AttrType = 0x0014 then
              (acc.1,
                acc.2.1 ++ (List.range AttrLength).map (fun i => resp.getD (AttrOffset + 4 + i) 0),
                acc.2.2)
            else if AttrType = 0x0015 then
              (acc.1, acc.2.1,
                acc.2.2 ++ (List.range AttrLength).map (fun i => resp.getD (AttrOffset + 4 + i) 0))
            else acc
          parseAllocErrorAttrs resp bytesRead fuel (AttrOffset + 4 + pad4len AttrLength) acc2
    else acc

/-- Attribute walk of a TURN Allocate success response (type `0x0103`),
source lines 702-764: XOR-RELAYED-ADDRESS (`0x0016`, length ≥ 8, IPv4
family byte `0x01`) yields the decoded `(ip, port)`; the walk stops early
if that attribute would overrun `bytesRead`.  LIFETIME (`0x000D`, length 4,
and 8 bytes available) updates the allocation lifetime. -/
def parseAllocSuccessAttrs (resp : List Nat) (bytesRead : Nat) :
    Nat → Nat → Option (Nat × Nat) × Option Nat → Option (Nat × Nat) × Option Nat
  | 0, _, acc => acc
  | fuel + 1, AttrOffset, acc =>
    if AttrOffset < bytesRead then
      if AttrOffset + 4 > bytesRead then acc
      else
        let AttrType := (resp.getD AttrOffset 0) <<< 8 ||| resp.getD (AttrOffset + 1) 0
        let AttrLength := (resp.getD (AttrOffset + 2) 0) <<< 8 ||| resp.getD (AttrOffset + 3) 0
        if AttrType = 0x0016 ∧ AttrLength ≥ 8 then
          if AttrOffset + 4 + AttrLength > bytesRead then acc
          else
            let acc2 :=
              if resp.getD (AttrOffset + 5) 0 = 0x01 then
                (some (xorDecodeIP ((resp.getD (AttrOffset + 8) 0) <<< 24
                    ||| (resp.getD (AttrOffset + 9) 0) <<< 16
                    ||| (resp.getD (AttrOffset + 10) 0) <<< 8
                    ||| resp.getD (AttrOffset + 11) 0),
                  xorDecodePort ((resp.getD (AttrOffset + 6) 0) <<< 8
                    ||| resp.getD (AttrOffset + 7) 0)),
                  acc.2)
              else acc
            parseAllocSuccessAttrs resp bytesRead fuel (AttrOffset + 4 + pad4len AttrLength) acc2
        else
          let acc2 :=
            if AttrType = 0x000D ∧ AttrLength = 4 then
              if AttrOffset + 8 ≤ bytesRead then
                (acc.1, some ((resp.getD (AttrOffset + 4) 0) <<< 24
                  ||| (resp.getD (AttrOffset + 5) 0) <<< 16
                  ||| (resp.getD (AttrOffset + 6) 0) <<< 8
                  ||| resp.getD (AttrOffset + 7) 0))
              else acc
            else acc
          parseAllocSuccessAttrs resp bytesRead fuel (AttrOffset + 4 + pad4len AttrLength) acc2
    else acc

/-- Result of one `PerformTURNAllocationRequest` exchange: the decoded relay
address when the function returned true, the LIFETIME member update (if
any), and every Allocate request actually sent. -/
structure AllocResult where
  relay : Option (Nat × Nat)
  lifetime : Option Nat
  requests : List (List Nat)
deriving DecidableEq, Repr

/-- `FICEAgent::PerformTURNAllocationRequest` (source lines 506-850): build
the request (see `buildAllocateRequest`), send it, receive one datagram and
parse it.  An Allocate Success (`0x0103` with a consistent declared length)
is scanned for XOR-RELAYED-ADDRESS and LIFETIME.  An Allocate Error
(`0x0113`) carrying ERROR-CODE 401 with nonempty REALM and NONCE causes
exactly one authenticated retry when `bIsRetry` is false; any other
response fails.  `responses` holds the server's datagrams in order (an
exhausted list models send/wait/recv failure); `tids` holds the random
transaction ids consumed per request. -/
def performTURNAllocationRequest (Username Credential : List Nat)
    (md5 : List Nat → List Nat) (hmacSha1 : List Nat → List Nat → List Nat) :
    List (List Nat) → List (List Nat) → List Nat → List Nat → Bool → AllocResult
  | tids, responses, Realm, Nonce, bIsRetry =>
    let req := buildAllocateRequest Username Realm Nonce Credential
      (tids.headD (List.replicate 12 0)) md5 hmacSha1
    match responses with
    | [] => ⟨none, none, [req]⟩
    | resp :: restResponses =>
      let bytesRead := resp.length
      if bytesRead ≥ 20 then
        let MessageType := (resp.getD 0 0) <<< 8 ||| resp.getD 1 0
        let MessageLength := (resp.getD 2 0) <<< 8 ||| resp.getD 3 0
        if MessageType = 0x0103 ∧ bytesRead ≥ 20 + MessageLength then
          let parsed := parseAllocSuccessAttrs resp bytesRead bytesRead 20 (none, none)
          ⟨parsed.1, parsed.2, [req]⟩
        else if MessageType = 0x0113 then
          let parsed := parseAllocErrorAttrs resp bytesRead bytesRead 20 (0, [], [])
          if parsed.1 = 401 ∧ parsed.2.1 ≠ [] ∧ parsed.2.2 ≠ [] ∧ bIsRetry = false then
            let rres := performTURNAllocationRequest Username Credential md5 hmacSha1
              tids.tail restResponses parsed.2.1 parsed.2.2 true
            ⟨rres.relay, rres.lifetime, req :: rres.requests⟩
          else ⟨none, none, [req]⟩
        else ⟨none, none, [req]⟩
      else ⟨none, none, [req]⟩

/-- `FICEAgent::PerformTURNAllocation`, credential check and the exchange
kick-off (source lines 418-504): with empty username or credential the
operation fails before sending anything; otherwise the first Allocate
request goes out unauthenticated (empty REALM and NONCE, `bIsRetry`
false). -/
def performTURNAllocation (Username Credential : List Nat)
    (md5 : List Nat → List Nat) (hmacSha1 : List Nat → List Nat → List Nat)
    (tids responses : List (List Nat)) : AllocResult × Bool :=
  if Username = [] ∨ Credential = [] then (⟨none, none, []⟩, false)
  else
    let r := performTURNAllocationRequest Username Credential md5 hmacSha1
      tids responses [] [] false
    (r, r.relay.isSome)

end OnlineSubsystemICE

namespace OnlineSubsystemICE

theorem requests_retry_one (Username Credential : List Nat)
    (md5 : List Nat → List Nat) (hmacSha1 : List Nat → List Nat → List Nat)
    (tids responses : List (List Nat)) (Realm Nonce : List Nat) :
    (performTURNAllocationRequest Username Credential md5 hmacSha1
      tids responses Realm Nonce true).requests.length = 1 := by
  unfold performTURNAllocationRequest
  cases responses with
  | nil => rfl
  | cons resp rest =>
    simp only []
    split_ifs <;> simp_all

theorem requests_le_two (Username Credential : List Nat)
    (md5 : List Nat → List Nat) (hmacSha1 : List Nat → List Nat → List Nat)
    (tids responses : List (List Nat)) (Realm Nonce : List Nat) (bIsRetry : Bool) :
    (performTURNAllocationRequest Username Credential md5 hmacSha1
      tids responses Realm Nonce bIsRetry).requests.length ≤ 2 := by
  cases bIsRetry with
  | true => rw [requests_retry_one]; omega
  | false =>
    unfold performTURNAllocationRequest
    cases responses with
    | nil => simp
    | cons resp rest =>
      simp only []
      split_ifs <;> simp_all [requests_retry_one]

end OnlineSubsystemICE

namespace OnlineSubsystemICE

/-- **C2.** In a TURN Allocate exchange whose server answers 401 with
REALM and NONCE twice: the first request is the unauthenticated build
(empty REALM/NONCE), the client retries exactly once with authentication
(the second request carries the returned REALM and NONCE), the overall
operation fails, and (for every environment whatsoever) no run of
`PerformTURNAllocationRequest` ever issues more than two requests. -/
theorem turnAllocation_401_guard
    (Username Credential : List Nat)
    (md5 : List Nat → List Nat) (hmacSha1 : List Nat → List Nat → List Nat)
    (t1 t2 r1 r2 : List Nat)
    (hu : ¬ (Username = [] ∨ Credential = []))
    (h1len : r1.length ≥ 20)
    (h1type : (r1.getD 0 0) <<< 8 ||| r1.getD 1 0 = 0x0113)
    (h1e : (parseAllocErrorAttrs r1 r1.length r1.length 20 (0, [], [])).1 = 401)
    (h1r : (parseAllocErrorAttrs r1 r1.length r1.length 20 (0, [], [])).2.1 ≠ [])
    (h1n : (parseAllocErrorAttrs r1 r1.length r1.length 20 (0, [], [])).2.2 ≠ [])
    (h2len : r2.length ≥ 20)
    (h2type : (r2.getD 0 0) <<< 8 ||| r2.getD 1 0 = 0x0113)
    (h2e : (parseAllocErrorAttrs r2 r2.length r2.length 20 (0, [], [])).1 = 401)
    (h2r : (parseAllocErrorAttrs r2 r2.length r2.length 20 (0, [], [])).2.1 ≠ [])
    (h2n : (parseAllocErrorAttrs r2 r2.length r2.length 20 (0, [], [])).2.2 ≠ []) :
    performTURNAllocation Username Credential md5 hmacSha1 [t1, t2] [r1, r2]
      = (⟨none, none,
          [buildAllocateRequest Username [] [] Credential t1 md5 hmacSha1,
           buildAllocateRequest Username
             (parseAllocErrorAttrs r1 r1.length r1.length 20 (0, [], [])).2.1
             (parseAllocErrorAttrs r1 r1.length r1.length 20 (0, [], [])).2.2
             Credential t2 md5 hmacSha1]⟩, false) ∧
    (∀ tids responses Realm Nonce bIsRetry,
      (performTURNAllocationRequest Username Credential md5 hmacSha1
        tids responses Realm Nonce bIsRetry).requests.length ≤ 2) := by
  refine ⟨?_, fun tids responses Realm Nonce bIsRetry =>
    requests_le_two Username Credential md5 hmacSha1 tids responses Realm Nonce bIsRetry⟩
  simp only [List.getD_eq_getElem?_getD] at h1type h2type
  unfold performTURNAllocation
  rw [if_neg hu]
  simp [performTURNAllocationRequest, h1len, h1type, h1e, h1r, h1n,
    h2len, h2type, h2e, h2r, h2n]

end OnlineSubsystemICE

namespace OnlineSubsystemICE

/-- A mock Allocate Error datagram: type `0x0113`, ERROR-CODE 401, REALM
`"r"`, NONCE `"n"` (each padded to a 4-byte boundary). -/
def mock401resp : List Nat :=
  [0x01, 0x13, 0x00, 0x18, 0x21, 0x12, 0xA4, 0x42] ++ List.replicate 12 0
    ++ [0x00, 0x09, 0x00, 0x04, 0x00, 0x00, 0x04, 0x01]
    ++ [0x00, 0x14, 0x00, 0x01, 0x72, 0x00, 0x00, 0x00]
    ++ [0x00, 0x15, 0x00, 0x01, 0x6E, 0x00, 0x00, 0x00]

theorem turnAllocation_401_guard_witness :
    performTURNAllocation [0x75] [0x70] (fun _ => List.replicate 16 0)
        (fun _ _ => List.replicate 20 5)
        [List.replicate 12 1, List.replicate 12 2] [mock401resp, mock401resp]
      = (⟨none, none,
          [buildAllocateRequest [0x75] [] [] [0x70] (List.replicate 12 1)
            (fun _ => List.replicate 16 0) (fun _ _ => List.replicate 20 5),
           buildAllocateRequest [0x75]
             (parseAllocErrorAttrs mock401resp mock401resp.length mock401resp.length 20
               (0, [], [])).2.1
             (parseAllocErrorAttrs mock401resp mock401resp.length mock401resp.length 20
               (0, [], [])).2.2
             [0x70] (List.replicate 12 2)
             (fun _ => List.replicate 16 0) (fun _ _ => List.replicate 20 5)]⟩, false) :=
  (turnAllocation_401_guard [0x75] [0x70] (fun _ => List.replicate 16 0)
    (fun _ _ => List.replicate 20 5) (List.replicate 12 1) (List.replicate 12 2)
    mock401resp mock401resp (by decide) (by decide) (by decide) (by decide)
    (by decide) (by decide) (by decide) (by decide) (by decide) (by decide)
    (by decide)).1

end OnlineSubsystemICE

namespace OnlineSubsystemICE

/-! ### The agent state machine

`FICEAgent` and its operations, embedded as pure functions of the agent
state and per-call environments (socket outcomes, received datagrams,
server responses).  Pointer members are embedded as presence booleans;
`FMath::Rand` transaction ids live in the environments; the state-change
delegate broadcast has no effect on the agent state and is dropped. -/

/-- Connection states (`EICEConnectionState`). -/
inductive EICEConnectionState where
  | New
  | Gathering
  | ConnectingDirect
  | ConnectingRelay
  | PerformingHandshake
  | Connected
  | Failed
deriving DecidableEq, Repr

/-- Agent configuration (`FICEAgentConfig`).  Server URIs are text;
credentials are byte strings (they are only ever written into wire
buffers). -/
structure FICEAgentConfig where
  STUNServers : List (List Char)
  TURNServers : List (List Char)
  TURNUsername : List Nat
  TURNCredential : List Nat
  bEnableIPv6 : Bool
deriving DecidableEq, Repr

/-- `FICEAgent::MAX_DIRECT_ATTEMPTS`. -/
def MAX_DIRECT_ATTEMPTS : Nat := 3

/-- Modelled from the spec: the value of `MAX_TOTAL_ATTEMPTS` is missing
from `src` (the public header predates the member the implementation file
uses); §4.7 of the specification bounds it by 10, which is adopted here.
No claim depends on the numeric value. -/
def MAX_TOTAL_ATTEMPTS : Nat := 10

/-- `FICEAgent::MAX_HANDSHAKE_TIMEOUT` (seconds). -/
def MAX_HANDSHAKE_TIMEOUT : Rat := 5

/-- `FICEAgent::HANDSHAKE_RETRY_INTERVAL` (seconds). -/
def HANDSHAKE_RETRY_INTERVAL : Rat := 1

/-- The state of an `FICEAgent`.  `hasSocket`/`hasTURNSocket` embed the
`Socket`/`TURNSocket` pointers; `hasTURNServerAddr`/`hasTURNRelayAddr`
embed the validity of the stored addresses; `float` timers are exact
rationals. -/
structure FICEAgent where
  Config : FICEAgentConfig
  LocalCandidates : List FICECandidate
  RemoteCandidates : List FICECandidate
  hasSocket : Bool
  hasTURNSocket : Bool
  hasTURNServerAddr : Bool
  hasTURNRelayAddr : Bool
  TURNAllocationLifetime : Nat
  TimeSinceTURNRefresh : Rat
  TURNChannelNumber : Nat
  bTURNAllocationActive : Bool
  bIsConnected : Bool
  SelectedLocalCandidate : FICECandidate
  SelectedRemoteCandidate : FICECandidate
  ConnectionState : EICEConnectionState
  DirectConnectionAttempts : Nat
  TotalConnectionAttempts : Nat
  RetryDelay : Rat
  TimeSinceLastAttempt : Rat
  bHandshakeSent : Bool
  bHandshakeReceived : Bool
  HandshakeTimeout : Rat
  TimeSinceHandshakeStart : Rat
  TimeSinceLastHandshakeSend : Rat
deriving DecidableEq, Repr

/-- The constructor `FICEAgent::FICEAgent(const FICEAgentConfig&)`. -/
def mkFICEAgent (InConfig : FICEAgentConfig) : FICEAgent :=
  { Config := InConfig
    LocalCandidates := []
    RemoteCandidates := []
    hasSocket := false
    hasTURNSocket := false
    hasTURNServerAddr := false
    hasTURNRelayAddr := false
    TURNAllocationLifetime := 600
    TimeSinceTURNRefresh := 0
    TURNChannelNumber := CHANNEL_NUMBER_MIN
    bTURNAllocationActive := false
    bIsConnected := false
    SelectedLocalCandidate := FICECandidate.default
    SelectedRemoteCandidate := FICECandidate.default
    ConnectionState := .New
    DirectConnectionAttempts := 0
    TotalConnectionAttempts := 0
    RetryDelay := 1
    TimeSinceLastAttempt := 0
    bHandshakeSent := false
    bHandshakeReceived := false
    HandshakeTimeout := MAX_HANDSHAKE_TIMEOUT
    TimeSinceHandshakeStart := 0
    TimeSinceLastHandshakeSend := 0 }

/-- `FICEAgent::UpdateConnectionState`: no-op when the state is unchanged;
otherwise store the new state, broadcast (no state effect), and reset
`TimeSinceLastAttempt`. -/
def updateConnectionState (s : FICEAgent) (NewState : EICEConnectionState) : FICEAgent :=
  if s.ConnectionState = NewState then s
  else { s with ConnectionState := NewState, TimeSinceLastAttempt := 0 }

/-- `FICEAgent::Close` (source lines 1519-1561): destroy both sockets,
return to `New`, clear flags, counters, timers, stored TURN addresses and
both candidate lists. -/
def close (s : FICEAgent) : FICEAgent :=
  { s with
    hasSocket := false
    hasTURNSocket := false
    ConnectionState := .New
    bIsConnected := false
    bHandshakeSent := false
    bHandshakeReceived := false
    bTURNAllocationActive := false
    DirectConnectionAttempts := 0
    TotalConnectionAttempts := 0
    TimeSinceLastAttempt := 0
    TimeSinceHandshakeStart := 0
    TimeSinceLastHandshakeSend := 0
    TimeSinceTURNRefresh := 0
    hasTURNServerAddr := false
    hasTURNRelayAddr := false
    LocalCandidates := []
    RemoteCandidates := [] }

/-- `FICEAgent::CleanupSocketOnError`: destroy the data socket and fail. -/
def cleanupSocketOnError (s : FICEAgent) : FICEAgent :=
  updateConnectionState { s with hasSocket := false } .Failed

/-- `FICEAgent::ShouldRetryHandshake`. -/
def shouldRetryHandshake (s : FICEAgent) : Prop :=
  s.TimeSinceLastHandshakeSend ≥ HANDSHAKE_RETRY_INTERVAL ∧
  s.bHandshakeSent = true ∧ s.bHandshakeReceived = false

instance (s : FICEAgent) : Decidable (shouldRetryHandshake s) := by
  unfold shouldRetryHandshake
  infer_instance

/-- `FICEAgent::CompleteHandshake`: once both handshake flags hold, mark
connected and enter `Connected`. -/
def completeHandshake (s : FICEAgent) : FICEAgent :=
  if s.bHandshakeSent = true ∧ s.bHandshakeReceived = true then
    updateConnectionState { s with bIsConnected := true } .Connected
  else s

/-- Outcome of one socket `SendTo` call: the boolean result and the
`BytesSent` out-parameter. -/
structure SendToEnv where
  ok : Bool
  bytesSent : Nat
deriving DecidableEq, Repr

/-- Environment of one `SendHandshake` call: remote-address resolution and
the socket send outcome. -/
structure SendHandshakeEnv where
  remoteAddrValid : Bool
  send : SendToEnv
deriving DecidableEq, Repr

/-- `FICEAgent::SendHandshake` (source lines 1359-1434): build the 9-byte
`ICEH` packet and send it to the selected remote candidate.  On a full
send: the first successful HELLO request send sets `bHandshakeSent` and
zeroes the handshake timers; response sends and retries change nothing. -/
def sendHandshake (s : FICEAgent) (env : SendHandshakeEnv) : Bool × FICEAgent :=
  if s.hasSocket = false then (false, s)
  else if env.remoteAddrValid = false then (false, s)
  else if env.send.ok = true ∧ env.send.bytesSent = 9 then
    if s.bHandshakeReceived = false then
      if s.bHandshakeSent = false then
        (true, { s with bHandshakeSent := true, TimeSinceHandshakeStart := 0,
                        TimeSinceLastHandshakeSend := 0 })
      else (true, s)
    else (true, s)
  else (false, s)

/-- Environment of one `ProcessReceivedData` call: pending-data check,
receive outcome, the received datagram, and the environment of the HELLO
response send it may trigger. -/
structure ProcessReceivedDataEnv where
  pendingData : Bool
  recvOk : Bool
  datagram : List Nat
  sendEnv : SendHandshakeEnv
deriving DecidableEq, Repr

/-- `FICEAgent::ProcessReceivedData` (source lines 1436-1517): receive one
datagram; packets of at least 9 bytes starting with `"ICEH"` and typed
HELLO request (1) set `bHandshakeReceived`, answer with a HELLO response
and try to complete the handshake; HELLO responses (2) set the flag and try
to complete; everything else is ignored. -/
def processReceivedData (s : FICEAgent) (env : ProcessReceivedDataEnv) : Bool × FICEAgent :=
  if s.hasSocket = false then (false, s)
  else if env.pendingData = false then (false, s)
  else if env.recvOk = false then (false, s)
  else if env.datagram.length < 9 then (false, s)
  else if env.datagram.take 4 = [0x49, 0x43, 0x45, 0x48] then
    if env.datagram.getD 4 0 = 1 then
      let s1 := { s with bHandshakeReceived := true }
      let s2 := (sendHandshake s1 env.sendEnv).2
      (true, completeHandshake s2)
    else if env.datagram.getD 4 0 = 2 then
      (true, completeHandshake { s with bHandshakeReceived := true })
    else (false, s)
  else (false, s)

/-- `FICEAgent::SelectHighestPriorityCandidate`: first candidate, replaced
whenever a strictly higher priority appears. -/
def selectHighestPriorityCandidate (Candidates : List FICECandidate) : FICECandidate :=
  match Candidates with
  | [] => FICECandidate.default
  | c0 :: rest => rest.foldl (fun Best c => if c.Priority > Best.Priority then c else Best) c0

/-- The port write-back loop of `StartConnectivityChecks` (source lines
1130-1140): update the first local candidate matching the selected one's
address and type that still has port 0. -/
def updateLocalCandidatePort : List FICECandidate → FICECandidate → Int → List FICECandidate
  | [], _, _ => []
  | c :: rest, sel, p =>
    if c.Address = sel.Address ∧ c.Typ = sel.Typ ∧ c.Port = 0 then
      { c with Port := p } :: rest
    else c :: updateLocalCandidatePort rest sel p

end OnlineSubsystemICE

namespace OnlineSubsystemICE

/-- Environment of one `StartConnectivityChecks` call: address resolutions,
socket creation/bind, the read-back of the bound address, the outcomes of
the TURN permission/channel-bind round trips (which leave the modeled state
unchanged), and the initial handshake send. -/
structure StartChecksEnv where
  remoteAddrValid : Bool
  localAddrValid : Bool
  createSocketOk : Bool
  bindOk : Bool
  boundAddrValid : Bool
  actualPort : Int
  createPermissionOk : Bool
  channelBindOk : Bool
  sendEnv : SendHandshakeEnv
deriving DecidableEq, Repr

/-- The socket phase of `FICEAgent::StartConnectivityChecks` (source lines
1046-1197), entered after a candidate pair has been selected: resolve the
remote and local addresses, create and bind the data socket (letting the OS
pick the port for non-host locals), write the assigned port back into the
selected and stored local candidates, validate and set up the TURN relay
when the selected local is relayed, then enter `PerformingHandshake` and
send the first HELLO. -/
def startChecksSocketPhase (s : FICEAgent) (env : StartChecksEnv) : Bool × FICEAgent :=
  if env.remoteAddrValid = false then (false, updateConnectionState s .Failed)
  else if env.localAddrValid = false then (false, updateConnectionState s .Failed)
  else if env.createSocketOk = false then (false, updateConnectionState s .Failed)
  else
    let s := { s with hasSocket := true }
    if env.bindOk = false then (false, cleanupSocketOnError s)
    else
      let s :=
        if env.boundAddrValid = true ∧ s.SelectedLocalCandidate.Port = 0 then
          { s with
            SelectedLocalCandidate := { s.SelectedLocalCandidate with Port := env.actualPort }
            LocalCandidates :=
              updateLocalCandidatePort s.LocalCandidates s.SelectedLocalCandidate
                env.actualPort }
        else s
      if s.SelectedLocalCandidate.Typ = .Relayed ∧ s.bTURNAllocationActive = false then
        (false, cleanupSocketOnError s)
      else if s.SelectedLocalCandidate.Typ = .Relayed ∧ s.hasTURNSocket = false then
        (false, cleanupSocketOnError s)
      else
        let s := updateConnectionState s .PerformingHandshake
        (true, (sendHandshake s env.sendEnv).2)

/-- `FICEAgent::StartConnectivityChecks` (source lines 909-1198).  Already
connected is a no-op success; an exhausted total-attempt budget fails; the
attempt counter then increments; empty candidate lists fail; otherwise a
fresh attempt destroys any old socket, resets the handshake flags and
timers, selects the highest-priority direct pair (host/srflx) while direct
attempts remain — falling through to `ConnectingRelay` with the previous
selection when no direct pair exists — or the highest-priority relay pair
afterwards, then runs the socket phase. -/
def startConnectivityChecks (s : FICEAgent) (env : StartChecksEnv) : Bool × FICEAgent :=
  if s.ConnectionState = .Connected then (true, s)
  else if s.TotalConnectionAttempts ≥ MAX_TOTAL_ATTEMPTS then
    (false, updateConnectionState s .Failed)
  else
    let s := { s with TotalConnectionAttempts := s.TotalConnectionAttempts + 1 }
    if s.LocalCandidates = [] ∨ s.RemoteCandidates = [] then
      (false, updateConnectionState s .Failed)
    else
      let s := { s with hasSocket := false }
      let s := { s with bHandshakeSent := false, bHandshakeReceived := false,
                        TimeSinceHandshakeStart := 0, TimeSinceLastHandshakeSend := 0 }
      if s.DirectConnectionAttempts < MAX_DIRECT_ATTEMPTS then
        let s := updateConnectionState s .ConnectingDirect
        let s := { s with DirectConnectionAttempts := s.DirectConnectionAttempts + 1 }
        let DirectLocalCandidates : List FICECandidate := s.LocalCandidates.filter
          (fun c => decide (c.Typ = EICECandidateType.Host ∨ c.Typ = EICECandidateType.ServerReflexive))
        let DirectRemoteCandidates : List FICECandidate := s.RemoteCandidates.filter
          (fun c => decide (c.Typ = EICECandidateType.Host ∨ c.Typ = EICECandidateType.ServerReflexive))
        if DirectLocalCandidates.length > 0 ∧ DirectRemoteCandidates.length > 0 then
          startChecksSocketPhase
            { s with
              SelectedLocalCandidate := selectHighestPriorityCandidate DirectLocalCandidates
              SelectedRemoteCandidate := selectHighestPriorityCandidate DirectRemoteCandidates }
            env
        else
          startChecksSocketPhase (updateConnectionState s .ConnectingRelay) env
      else
        let s := updateConnectionState s .ConnectingRelay
        let RelayLocalCandidates : List FICECandidate := s.LocalCandidates.filter
          (fun c => decide (c.Typ = EICECandidateType.Relayed))
        let RelayRemoteCandidates : List FICECandidate := s.RemoteCandidates.filter
          (fun c => decide (c.Typ = EICECandidateType.Relayed))
        if RelayLocalCandidates.length > 0 ∧ RelayRemoteCandidates.length > 0 then
          startChecksSocketPhase
            { s with
              SelectedLocalCandidate := selectHighestPriorityCandidate RelayLocalCandidates
              SelectedRemoteCandidate := selectHighestPriorityCandidate RelayRemoteCandidates }
            env
        else (false, updateConnectionState s .Failed)

end OnlineSubsystemICE

namespace OnlineSubsystemICE

/-- LIFETIME scan of a Refresh success response (source lines 2122-2146):
the first well-formed LIFETIME attribute (type `0x000D`, length 4, 8 bytes
available) ends the walk. -/
def parseRefreshLifetime (resp : List Nat) (bytesRead : Nat) :
    Nat → Nat → Option Nat
  | 0, _ => none
  | fuel + 1, AttrOffset =>
    if AttrOffset < bytesRead then
      if AttrOffset + 4 > bytesRead then none
      else
        let AttrType := (resp.getD AttrOffset 0) <<< 8 ||| resp.getD (AttrOffset + 1) 0
        let AttrLength := (resp.getD (AttrOffset + 2) 0) <<< 8 ||| resp.getD (AttrOffset + 3) 0
        if AttrType = 0x000D ∧ AttrLength = 4 then
          if AttrOffset + 8 ≤ bytesRead then
            some ((resp.getD (AttrOffset + 4) 0) <<< 24
              ||| (resp.getD (AttrOffset + 5) 0) <<< 16
              ||| (resp.getD (AttrOffset + 6) 0) <<< 8
              ||| resp.getD (AttrOffset + 7) 0)
          else none
        else parseRefreshLifetime resp bytesRead fuel (AttrOffset + 4 + pad4len AttrLength)
    else none

/-- Environment of one `PerformTURNRefresh` call. -/
structure TURNRefreshEnv where
  sendOk : Bool
  waitOk : Bool
  recvOk : Bool
  response : List Nat
deriving DecidableEq, Repr

/-- `FICEAgent::PerformTURNRefresh` (source lines 2010-2159): guarded by an
active allocation with its socket and server address; a Refresh Success
(`0x0104`) zeroes the refresh timer and adopts a LIFETIME from the
response when present; a Refresh Error (`0x0114`) deactivates the
allocation; anything else fails with no state change. -/
def performTURNRefresh (s : FICEAgent) (env : TURNRefreshEnv) : Bool × FICEAgent :=
  if s.hasTURNSocket = false ∨ s.bTURNAllocationActive = false ∨
      s.hasTURNServerAddr = false then (false, s)
  else if env.sendOk = false then (false, s)
  else if env.waitOk = false then (false, s)
  else if env.recvOk = false then (false, s)
  else
    let bytesRead := env.response.length
    if bytesRead ≥ 20 then
      if (env.response.getD 0 0) <<< 8 ||| env.response.getD 1 0 = 0x0104 then
        let s := { s with TimeSinceTURNRefresh := 0 }
        match parseRefreshLifetime env.response bytesRead bytesRead 20 with
        | some l => (true, { s with TURNAllocationLifetime := l })
        | none => (true, s)
      else if (env.response.getD 0 0) <<< 8 ||| env.response.getD 1 0 = 0x0114 then
        (false, { s with bTURNAllocationActive := false })
      else (false, s)
    else (false, s)

/-- Environment of one `Tick` call: the refresh round it may run, the
retry `StartConnectivityChecks` it may trigger, the receive it may
process, and the handshake resend it may issue. -/
structure TickEnv where
  refreshEnv : TURNRefreshEnv
  sccEnv : StartChecksEnv
  prdEnv : ProcessReceivedDataEnv
  retryEnv : SendHandshakeEnv
deriving DecidableEq, Repr

/-- `FICEAgent::Tick` (source lines 1273-1357).  `TimeSinceLastAttempt`
always advances; an active TURN allocation advances its refresh timer and
refreshes at 80% of the lifetime (a failed refresh reschedules 30 s before
the deadline).  Then, by state: `ConnectingDirect` retries
`StartConnectivityChecks` after `RetryDelay`; `ConnectingRelay` fails after
`RetryDelay`; `PerformingHandshake` processes received data, advances the
handshake timers, fails once `HandshakeTimeout` elapses without both flags,
and otherwise resends the HELLO every `HANDSHAKE_RETRY_INTERVAL`;
`Connected` just processes received data.  The timer/refresh preamble
(source lines 1275-1296) is `tickTimers`; `tick` is the state switch
(source lines 1298-1356). -/
def tickTimers (s : FICEAgent) (DeltaTime : Rat) (renv : TURNRefreshEnv) : FICEAgent :=
  let s := { s with TimeSinceLastAttempt := s.TimeSinceLastAttempt + DeltaTime }
  if s.bTURNAllocationActive = true then
    let s := { s with TimeSinceTURNRefresh := s.TimeSinceTURNRefresh + DeltaTime }
    let RefreshInterval : Rat := (s.TURNAllocationLifetime : Rat) * (4 / 5)
    if s.TimeSinceTURNRefresh ≥ RefreshInterval then
      match performTURNRefresh s renv with
      | (true, s2) => s2
      | (false, s2) => { s2 with TimeSinceTURNRefresh := RefreshInterval - 30 }
    else s
  else s

def tick (s : FICEAgent) (DeltaTime : Rat) (env : TickEnv) : FICEAgent :=
  let s := tickTimers s DeltaTime env.refreshEnv
  match s.ConnectionState with
  | .ConnectingDirect =>
    if s.TimeSinceLastAttempt ≥ s.RetryDelay ∧ s.bIsConnected = false then
      (startConnectivityChecks s env.sccEnv).2
    else s
  | .ConnectingRelay =>
    if s.TimeSinceLastAttempt ≥ s.RetryDelay ∧ s.bIsConnected = false then
      updateConnectionState s .Failed
    else s
  | .PerformingHandshake =>
    let s := (processReceivedData s env.prdEnv).2
    let s := { s with TimeSinceHandshakeStart := s.TimeSinceHandshakeStart + DeltaTime,
                      TimeSinceLastHandshakeSend := s.TimeSinceLastHandshakeSend + DeltaTime }
    if s.TimeSinceHandshakeStart ≥ s.HandshakeTimeout then
      if s.bHandshakeSent = false ∨ s.bHandshakeReceived = false then
        updateConnectionState s .Failed
      else s
    else if shouldRetryHandshake s then
      { (sendHandshake s env.retryEnv).2 with TimeSinceLastHandshakeSend := 0 }
    else s
  | .Connected => (processReceivedData s env.prdEnv).2
  | _ => s

end OnlineSubsystemICE

namespace OnlineSubsystemICE

/-- Environment of one `SendData` call: remote-address resolution and the
two sockets as send oracles (frame bytes in, `SendTo` outcome out). -/
structure SendDataEnv where
  remoteAddrValid : Bool
  sendTo : List Nat → SendToEnv
  turnSendTo : List Nat → SendToEnv

/-- The ChannelData frame built by `SendDataThroughTURN` (source lines
2171-2184): `ChannelNumber(2) | Length(2) | Data`. -/
def channelDataFrame (ChannelNumber : Nat) (Data : List Nat) : List Nat :=
  [(ChannelNumber >>> 8) % 256, ChannelNumber % 256,
   (Data.length >>> 8) % 256, Data.length % 256] ++ Data

/-- `FICEAgent::SendDataThroughTURN` (source lines 2161-2199): requires the
TURN socket, an active allocation and a stored server address.  With a
bound channel (`0x4000..0x7FFF`) it sends one ChannelData frame and
returns the bare `SendTo` result — `BytesSent` is not compared with the
frame size.  Without a bound channel the Send-indication path is stubbed
out and the call fails. -/
def sendDataThroughTURN (s : FICEAgent) (Data : List Nat) (env : SendDataEnv) : Bool :=
  if s.hasTURNSocket = false ∨ s.bTURNAllocationActive = false ∨
      s.hasTURNServerAddr = false then false
  else if CHANNEL_NUMBER_MIN ≤ s.TURNChannelNumber ∧
      s.TURNChannelNumber ≤ CHANNEL_NUMBER_MAX then
    (env.turnSendTo (channelDataFrame s.TURNChannelNumber Data)).ok
  else false

/-- `FICEAgent::SendData` (source lines 1205-1239): nothing is sent unless
connected; a relayed selected local with an active allocation delegates to
the TURN path; otherwise the datagram goes out on the data socket and the
call succeeds only when `SendTo` succeeded *and* `BytesSent` equals
`Size`. -/
def sendData (s : FICEAgent) (Data : List Nat) (env : SendDataEnv) : Bool :=
  if s.bIsConnected = false then false
  else if s.SelectedLocalCandidate.Typ = .Relayed ∧ s.bTURNAllocationActive = true then
    sendDataThroughTURN s Data env
  else if s.hasSocket = false then false
  else if env.remoteAddrValid = false then false
  else (env.sendTo Data).ok && (env.sendTo Data).bytesSent == Data.length

/-- Environment of one TURN allocation attempt against a single server in
`GatherRelayedCandidates`: the engine hash functions, the per-request
transaction ids and the server's response datagrams. -/
structure TURNGatherEnv where
  md5 : List Nat → List Nat
  hmacSha1 : List Nat → List Nat → List Nat
  tids : List (List Nat)
  responses : List (List Nat)

/-- `%d.%d.%d.%d` rendering of a 32-bit address. -/
def ipToString (v : Nat) : List Char :=
  natToDigits ((v >>> 24) % 256) ++ ['.'] ++ natToDigits ((v >>> 16) % 256)
    ++ ['.'] ++ natToDigits ((v >>> 8) % 256) ++ ['.'] ++ natToDigits (v % 256)

/-- `FICEAgent::PerformTURNAllocation` at the agent level (source lines
418-504): empty credentials fail before anything is sent; `none` models a
failed server resolution or socket creation.  Otherwise a fresh persistent
TURN socket is created, the server address stored, and the exchange of
`performTURNAllocationRequest` runs; success stores the relay address,
marks the allocation active and zeroes the refresh timer, while failure
destroys the TURN socket. -/
def performTURNAllocationAgent (s : FICEAgent) (serverEnv : Option TURNGatherEnv) :
    FICEAgent × Option (Nat × Nat) :=
  if s.Config.TURNUsername = [] ∨ s.Config.TURNCredential = [] then (s, none)
  else
    match serverEnv with
    | none => (s, none)
    | some e =>
      let s := { s with hasTURNSocket := true, hasTURNServerAddr := true }
      let r := performTURNAllocationRequest s.Config.TURNUsername s.Config.TURNCredential
        e.md5 e.hmacSha1 e.tids e.responses [] [] false
      let s :=
        match r.lifetime with
        | some l => { s with TURNAllocationLifetime := l }
        | none => s
      match r.relay with
      | some (ip, port) =>
        ({ s with hasTURNRelayAddr := true, bTURNAllocationActive := true,
                  TimeSinceTURNRefresh := 0 }, some (ip, port))
      | none => ({ s with hasTURNSocket := false }, none)

/-- The per-server loop of `FICEAgent::GatherRelayedCandidates` (source
lines 230-252): the first successful allocation appends one relay
candidate and stops. -/
def gatherRelayedAux (s : FICEAgent) :
    List (List Char) → List (Option TURNGatherEnv) → FICEAgent
  | [], _ => s
  | _ :: rest, envs =>
    match performTURNAllocationAgent s (envs.headD none) with
    | (s2, some (ip, port)) =>
      { s2 with LocalCandidates := s2.LocalCandidates ++
          [{ Foundation := "3".data
             ComponentId := 1
             Transport := "UDP".data
             Priority := (CalculatePriority .Relayed 65535 1 : Int)
             Address := ipToString ip
             Port := (port : Int)
             Typ := .Relayed
             RelatedAddress := []
             RelatedPort := 0 }] }
    | (s2, none) => gatherRelayedAux s2 rest envs.tail

/-- `FICEAgent::GatherRelayedCandidates`. -/
def gatherRelayedCandidates (s : FICEAgent) (envs : List (Option TURNGatherEnv)) : FICEAgent :=
  if s.Config.TURNServers = [] then s
  else gatherRelayedAux s s.Config.TURNServers envs

/-- `FICEAgent::GatherHostCandidates` (source lines 156-190): one host
candidate at the local address with port 0, or nothing when the local
address cannot be determined. -/
def gatherHostCandidates (s : FICEAgent) (hostAddr : Option (List Char)) : FICEAgent :=
  match hostAddr with
  | none => s
  | some addr =>
    { s with LocalCandidates := s.LocalCandidates ++
        [{ Foundation := "1".data
           ComponentId := 1
           Transport := "UDP".data
           Priority := (CalculatePriority .Host 65535 1 : Int)
           Address := addr
           Port := 0
           Typ := .Host
           RelatedAddress := []
           RelatedPort := 0 }] }

/-- `FICEAgent::GatherServerReflexiveCandidates` (source lines 192-218):
the first successful STUN probe (abstracted as `stunResult`) appends one
server-reflexive candidate. -/
def gatherServerReflexiveCandidates (s : FICEAgent)
    (stunResult : Option (List Char × Int)) : FICEAgent :=
  match stunResult with
  | none => s
  | some (ip, port) =>
    { s with LocalCandidates := s.LocalCandidates ++
        [{ Foundation := "2".data
           ComponentId := 1
           Transport := "UDP".data
           Priority := (CalculatePriority .ServerReflexive 65535 1 : Int)
           Address := ip
           Port := port
           Typ := .ServerReflexive
           RelatedAddress := []
           RelatedPort := 0 }] }

/-- Environment of one `GatherCandidates` call. -/
structure GatherEnv where
  hostAddr : Option (List Char)
  stunResult : Option (List Char × Int)
  turnEnvs : List (Option TURNGatherEnv)

/-- `FICEAgent::GatherCandidates` (source lines 131-154): clear the local
list, gather host, then server-reflexive when STUN servers are configured,
then relayed when TURN servers are configured; report whether anything was
gathered. -/
def gatherCandidates (s : FICEAgent) (env : GatherEnv) : Bool × FICEAgent :=
  let s := { s with LocalCandidates := [] }
  let s := gatherHostCandidates s env.hostAddr
  let s := if s.Config.STUNServers.length > 0
    then gatherServerReflexiveCandidates s env.stunResult else s
  let s := if s.Config.TURNServers.length > 0
    then gatherRelayedCandidates s env.turnEnvs else s
  (s.LocalCandidates.length > 0, s)

/-- `FICEAgent::AddRemoteCandidate`. -/
def addRemoteCandidate (s : FICEAgent) (Candidate : FICECandidate) : FICEAgent :=
  { s with RemoteCandidates := s.RemoteCandidates ++ [Candidate] }

/-- One invocation of a public `FICEAgent` operation together with its
environment.  `send` and `recv` are included for completeness:
`SendData`/`ReceiveData`/`ReceiveDataFromTURN` assign no members of the
agent (they only write their out-parameters), so they leave the modeled
state unchanged. -/
inductive FICEAgentOp where
  | gather (env : GatherEnv)
  | addRemote (Candidate : FICECandidate)
  | startChecks (env : StartChecksEnv)
  | tick (DeltaTime : Rat) (env : TickEnv)
  | send (Data : List Nat) (env : SendDataEnv)
  | recv
  | close

/-- The state reached by running one operation. -/
def applyOp (s : FICEAgent) : FICEAgentOp → FICEAgent
  | .gather env => (gatherCandidates s env).2
  | .addRemote c => addRemoteCandidate s c
  | .startChecks env => (startConnectivityChecks s env).2
  | .tick dt env => tick s dt env
  | .send _ _ => s
  | .recv => s
  | .close => close s

end OnlineSubsystemICE

namespace OnlineSubsystemICE

/-- **C7.** After `Close()`, from any prior state: the connection state is
`New`, both candidate lists are empty, the TURN allocation is inactive and
every elapsed timer is zero; and a second `Close()` changes nothing. -/
theorem close_resets (s : FICEAgent) :
    (close s).ConnectionState = .New ∧
    (close s).LocalCandidates = [] ∧
    (close s).RemoteCandidates = [] ∧
    (close s).bTURNAllocationActive = false ∧
    (close s).TimeSinceLastAttempt = 0 ∧
    (close s).TimeSinceHandshakeStart = 0 ∧
    (close s).TimeSinceLastHandshakeSend = 0 ∧
    (close s).TimeSinceTURNRefresh = 0 ∧
    close (close s) = close s :=
  ⟨rfl, rfl, rfl, rfl, rfl, rfl, rfl, rfl, rfl⟩

/-- A configuration with no servers and no credentials. -/
def emptyConfig : FICEAgentConfig :=
  { STUNServers := [], TURNServers := [], TURNUsername := [],
    TURNCredential := [], bEnableIPv6 := false }

/-- An all-failure environment for `StartConnectivityChecks`. -/
def failEnv : StartChecksEnv :=
  { remoteAddrValid := false, localAddrValid := false, createSocketOk := false,
    bindOk := false, boundAddrValid := false, actualPort := 0,
    createPermissionOk := false, channelBindOk := false,
    sendEnv := { remoteAddrValid := false, send := { ok := false, bytesSent := 0 } } }

/-- **C4 (counterexample).** On a fresh agent with no candidates,
`StartConnectivityChecks` returns false but *does* mutate the state: the
connection state becomes `Failed` (it was `New`) and the total-attempt
counter becomes 1 (it was 0). -/
theorem startChecks_no_candidates_mutates :
    (startConnectivityChecks (mkFICEAgent emptyConfig) failEnv).1 = false ∧
    (startConnectivityChecks (mkFICEAgent emptyConfig) failEnv).2 ≠ mkFICEAgent emptyConfig ∧
    (startConnectivityChecks (mkFICEAgent emptyConfig) failEnv).2.ConnectionState = .Failed ∧
    (startConnectivityChecks (mkFICEAgent emptyConfig) failEnv).2.TotalConnectionAttempts = 1 := by
  decide

/-- **C4 (amended).** Calling `StartConnectivityChecks` when either
candidate list is empty (below the total-attempt budget and not already
connected) returns false, but it mutates the agent: the total-attempt
counter increments and the connection state is set to `Failed` (resetting
`TimeSinceLastAttempt` when the state actually changes). -/
theorem startChecks_no_candidates (s : FICEAgent) (env : StartChecksEnv)
    (h1 : s.ConnectionState ≠ .Connected)
    (h2 : s.TotalConnectionAttempts < MAX_TOTAL_ATTEMPTS)
    (h3 : s.LocalCandidates = [] ∨ s.RemoteCandidates = []) :
    startConnectivityChecks s env =
      (false, updateConnectionState
        { s with TotalConnectionAttempts := s.TotalConnectionAttempts + 1 } .Failed) := by
  simp only [startConnectivityChecks]
  rw [if_neg h1, if_neg (by omega), if_pos (by simpa using h3)]

/-- Witness for `startChecks_no_candidates` on the fresh agent. -/
theorem startChecks_no_candidates_witness :
    startConnectivityChecks (mkFICEAgent emptyConfig) failEnv =
      (false, updateConnectionState
        { mkFICEAgent emptyConfig with
          TotalConnectionAttempts := (mkFICEAgent emptyConfig).TotalConnectionAttempts + 1 }
        .Failed) :=
  startChecks_no_candidates (mkFICEAgent emptyConfig) failEnv (by decide) (by decide)
    (Or.inl rfl)

end OnlineSubsystemICE

namespace OnlineSubsystemICE

/-- A connected relayed-path agent with a bound channel. -/
def relayedAgent : FICEAgent :=
  { mkFICEAgent emptyConfig with
    bIsConnected := true
    bTURNAllocationActive := true
    hasTURNSocket := true
    hasTURNServerAddr := true
    SelectedLocalCandidate := { FICECandidate.default with Typ := .Relayed } }

/-- A send environment whose TURN socket reports success with 0 bytes
sent. -/
def partialTURNSendEnv : SendDataEnv :=
  { remoteAddrValid := true
    sendTo := fun _ => { ok := true, bytesSent := 0 }
    turnSendTo := fun _ => { ok := true, bytesSent := 0 } }

/-- **C5 (counterexample).** On the TURN ChannelData path a partial send is
*not* a failure: with the socket reporting success but 0 bytes sent for
the 7-byte frame of a 3-byte payload, `SendData` still returns true. -/
theorem sendData_partial_turn_send_succeeds :
    sendData relayedAgent [1, 2, 3] partialTURNSendEnv = true ∧
    (partialTURNSendEnv.turnSendTo
      (channelDataFrame relayedAgent.TURNChannelNumber [1, 2, 3])).bytesSent = 0 ∧
    (channelDataFrame relayedAgent.TURNChannelNumber [1, 2, 3]).length = 7 := by
  constructor
  · rfl
  · exact ⟨rfl, rfl⟩

/-- **C5 (amended).** For a connected send: on the direct-socket path the
call returns true exactly when the socket send succeeded *and* `BytesSent`
equals `Size`; on the TURN ChannelData relay path (relayed selected local,
active allocation, socket and server address present, channel bound) the
call returns the bare socket result — `BytesSent` is not checked there. -/
theorem sendData_partial_send (s t : FICEAgent) (Data Data2 : List Nat)
    (env env2 : SendDataEnv)
    (hsc : s.bIsConnected = true)
    (hsd : ¬ (s.SelectedLocalCandidate.Typ = .Relayed ∧ s.bTURNAllocationActive = true))
    (htc : t.bIsConnected = true)
    (htr : t.SelectedLocalCandidate.Typ = .Relayed ∧ t.bTURNAllocationActive = true)
    (htg : t.hasTURNSocket = true ∧ t.hasTURNServerAddr = true)
    (htch : CHANNEL_NUMBER_MIN ≤ t.TURNChannelNumber ∧
      t.TURNChannelNumber ≤ CHANNEL_NUMBER_MAX) :
    (sendData s Data env = true ↔
      s.hasSocket = true ∧ env.remoteAddrValid = true ∧
      (env.sendTo Data).ok = true ∧ (env.sendTo Data).bytesSent = Data.length) ∧
    sendData t Data2 env2 =
      (env2.turnSendTo (channelDataFrame t.TURNChannelNumber Data2)).ok := by
  constructor
  · simp only [sendData, hsc]
    rw [if_neg (by simp), if_neg hsd]
    split_ifs with hsock haddr
    · simp [hsock]
    · simp only [Bool.false_eq_true, false_iff]
      intro h
      exact absurd h.2.1 (by simpa using haddr)
    · simp only [Bool.and_eq_true, beq_iff_eq, Bool.not_eq_true] at *
      constructor
      · intro h
        exact ⟨by simpa using hsock, by simpa using haddr, h.1, h.2⟩
      · intro h
        exact ⟨h.2.2.1, h.2.2.2⟩
  · simp only [sendData, htc]
    rw [if_neg (by simp), if_pos htr]
    simp only [sendDataThroughTURN, htg.1, htg.2, htr.2]
    rw [if_neg (by simp), if_pos htch]

end OnlineSubsystemICE

namespace OnlineSubsystemICE

/-- A connected direct-path agent. -/
def directAgent : FICEAgent :=
  { mkFICEAgent emptyConfig with bIsConnected := true, hasSocket := true }

/-- Witness for `sendData_partial_send`: a direct agent with a send oracle
and the relayed agent with the partial TURN send. -/
theorem sendData_partial_send_witness :
    (sendData directAgent [9] partialTURNSendEnv = true ↔
      directAgent.hasSocket = true ∧ partialTURNSendEnv.remoteAddrValid = true ∧
      (partialTURNSendEnv.sendTo [9]).ok = true ∧
      (partialTURNSendEnv.sendTo [9]).bytesSent = [9].length) ∧
    sendData relayedAgent [1, 2, 3] partialTURNSendEnv =
      (partialTURNSendEnv.turnSendTo
        (channelDataFrame relayedAgent.TURNChannelNumber [1, 2, 3])).ok :=
  sendData_partial_send directAgent relayedAgent [9] [1, 2, 3] partialTURNSendEnv
    partialTURNSendEnv rfl (by decide) rfl (by decide) (by decide) (by decide)

end OnlineSubsystemICE

namespace OnlineSubsystemICE

theorem updateConnectionState_state (s : FICEAgent) (t : EICEConnectionState) :
    (updateConnectionState s t).ConnectionState = t := by
  unfold updateConnectionState
  split_ifs with h
  · exact h
  · rfl

theorem updateConnectionState_sent (s : FICEAgent) (t : EICEConnectionState) :
    (updateConnectionState s t).bHandshakeSent = s.bHandshakeSent := by
  unfold updateConnectionState
  split_ifs <;> rfl

theorem updateConnectionState_received (s : FICEAgent) (t : EICEConnectionState) :
    (updateConnectionState s t).bHandshakeReceived = s.bHandshakeReceived := by
  unfold updateConnectionState
  split_ifs <;> rfl

theorem sendHandshake_state (s : FICEAgent) (env : SendHandshakeEnv) :
    ((sendHandshake s env).2).ConnectionState = s.ConnectionState := by
  unfold sendHandshake
  split_ifs <;> rfl

theorem sendHandshake_received (s : FICEAgent) (env : SendHandshakeEnv) :
    ((sendHandshake s env).2).bHandshakeReceived = s.bHandshakeReceived := by
  unfold sendHandshake
  split_ifs <;> rfl

theorem sendHandshake_sent_mono (s : FICEAgent) (env : SendHandshakeEnv)
    (h : s.bHandshakeSent = true) :
    ((sendHandshake s env).2).bHandshakeSent = true := by
  unfold sendHandshake
  split_ifs <;> simp_all

theorem completeHandshake_spec (s : FICEAgent) :
    (completeHandshake s = s) ∨
    ((completeHandshake s).ConnectionState = .Connected ∧
      (completeHandshake s).bHandshakeSent = true ∧
      (completeHandshake s).bHandshakeReceived = true) := by
  unfold completeHandshake
  split_ifs with h
  · right
    refine ⟨updateConnectionState_state _ _, ?_, ?_⟩
    · rw [updateConnectionState_sent]
      exact h.1
    · rw [updateConnectionState_received]
      exact h.2
  · left; rfl

theorem completeHandshake_connected (s : FICEAgent)
    (h : s.ConnectionState = .Connected) :
    (completeHandshake s).ConnectionState = .Connected := by
  rcases completeHandshake_spec s with he | hc
  · rw [he, h]
  · exact hc.1

theorem processReceivedData_spec (s : FICEAgent) (env : ProcessReceivedDataEnv) :
    (s.ConnectionState = .Connected →
      ((processReceivedData s env).2).ConnectionState = .Connected) ∧
    (((processReceivedData s env).2).ConnectionState ≠ s.ConnectionState →
      ((processReceivedData s env).2).ConnectionState = .Connected ∧
      ((processReceivedData s env).2).bHandshakeSent = true ∧
      ((processReceivedData s env).2).bHandshakeReceived = true) := by
  unfold processReceivedData
  split_ifs with h1 h2 h3 h4 h5 h6 h7
  case pos => exact ⟨fun h => h, fun h => absurd rfl h⟩
  all_goals try exact ⟨fun h => h, fun h => absurd rfl h⟩
  -- HELLO request branch
  case pos =>
    constructor
    · intro hc
      apply completeHandshake_connected
      rw [sendHandshake_state]
      exact hc
    · intro hne
      rcases completeHandshake_spec ((sendHandshake
          { s with bHandshakeReceived := true } env.sendEnv).2) with he | hc
      · exfalso
        apply hne
        simp only [he, sendHandshake_state]
      · exact hc
  -- HELLO response branch
  case pos =>
    constructor
    · intro hc
      exact completeHandshake_connected _ (by exact hc)
    · intro hne
      rcases completeHandshake_spec { s with bHandshakeReceived := true } with he | hc
      · exfalso
        apply hne
        rw [he]
      · exact hc

end OnlineSubsystemICE

namespace OnlineSubsystemICE

theorem performTURNRefresh_state (s : FICEAgent) (env : TURNRefreshEnv) :
    ((performTURNRefresh s env).2).ConnectionState = s.ConnectionState := by
  simp only [performTURNRefresh]
  rcases h : parseRefreshLifetime env.response env.response.length
      env.response.length 20 with _ | l <;>
    split_ifs <;> simp [h]

theorem performTURNRefresh_state_eq (s s2 : FICEAgent) (b : Bool)
    (env : TURNRefreshEnv) (h : performTURNRefresh s env = (b, s2)) :
    s2.ConnectionState = s.ConnectionState := by
  have hs := performTURNRefresh_state s env
  rw [h] at hs
  exact hs

theorem tickTimers_state (s : FICEAgent) (dt : Rat) (renv : TURNRefreshEnv) :
    (tickTimers s dt renv).ConnectionState = s.ConnectionState := by
  simp only [tickTimers]
  split_ifs with h1 h2
  · split
    all_goals
      rename_i s2 heq
      simpa using performTURNRefresh_state_eq _ _ _ _ heq
  · rfl
  · rfl

theorem socketPhase_not_connected (s : FICEAgent) (env : StartChecksEnv) :
    ((startChecksSocketPhase s env).2).ConnectionState ≠ .Connected := by
  simp only [startChecksSocketPhase]
  split_ifs <;>
    simp_all [cleanupSocketOnError, sendHandshake_state, updateConnectionState_state]

theorem scc_connected (s : FICEAgent) (env : StartChecksEnv)
    (h : s.ConnectionState = .Connected) :
    startConnectivityChecks s env = (true, s) := by
  unfold startConnectivityChecks
  rw [if_pos h]

theorem scc_not_connected (s : FICEAgent) (env : StartChecksEnv)
    (h : s.ConnectionState ≠ .Connected) :
    ((startConnectivityChecks s env).2).ConnectionState ≠ .Connected := by
  simp only [startConnectivityChecks]
  split_ifs <;>
    first
      | exact socketPhase_not_connected _ _
      | exact absurd (by assumption) h
      | simp [updateConnectionState_state]

theorem performTURNAllocationAgent_state (s : FICEAgent) (e : Option TURNGatherEnv) :
    ((performTURNAllocationAgent s e).1).ConnectionState = s.ConnectionState := by
  unfold performTURNAllocationAgent
  split_ifs
  · rfl
  · rcases e with _ | e
    · rfl
    · rcases h : performTURNAllocationRequest s.Config.TURNUsername s.Config.TURNCredential
        e.md5 e.hmacSha1 e.tids e.responses [] [] false with ⟨relay, lifetime, reqs⟩
      rcases lifetime with _ | l <;> rcases relay with _ | ⟨ip, port⟩ <;> simp [h]

theorem gatherRelayedAux_state (s : FICEAgent) (servers : List (List Char))
    (envs : List (Option TURNGatherEnv)) :
    (gatherRelayedAux s servers envs).ConnectionState = s.ConnectionState := by
  induction servers generalizing s envs with
  | nil => rfl
  | cons srv rest ih =>
    unfold gatherRelayedAux
    rcases h : performTURNAllocationAgent s (envs.headD none) with ⟨s2, r⟩
    have hs2 : s2.ConnectionState = s.ConnectionState := by
      have := performTURNAllocationAgent_state s (envs.headD none)
      rw [h] at this
      exact this
    rcases r with _ | ⟨ip, port⟩
    · simp only [ih s2 envs.tail, hs2]
    · exact hs2

theorem gatherHostCandidates_state (s : FICEAgent) (a : Option (List Char)) :
    (gatherHostCandidates s a).ConnectionState = s.ConnectionState := by
  rcases a with _ | addr <;> rfl

theorem gatherSrflxCandidates_state (s : FICEAgent)
    (r : Option (List Char × Int)) :
    (gatherServerReflexiveCandidates s r).ConnectionState = s.ConnectionState := by
  rcases r with _ | ⟨ip, p⟩ <;> rfl

theorem gatherRelayedCandidates_state (s : FICEAgent)
    (envs : List (Option TURNGatherEnv)) :
    (gatherRelayedCandidates s envs).ConnectionState = s.ConnectionState := by
  unfold gatherRelayedCandidates
  split_ifs <;> first | rfl | exact gatherRelayedAux_state _ _ _

theorem gatherCandidates_state (s : FICEAgent) (env : GatherEnv) :
    ((gatherCandidates s env).2).ConnectionState = s.ConnectionState := by
  simp only [gatherCandidates]
  split_ifs <;>
    simp [gatherRelayedCandidates_state, gatherSrflxCandidates_state,
      gatherHostCandidates_state]

end OnlineSubsystemICE

namespace OnlineSubsystemICE

theorem tick_spec (s : FICEAgent) (dt : Rat) (env : TickEnv) :
    ((tick s dt env).ConnectionState = .Connected →
      s.ConnectionState = .Connected ∨
      ((tick s dt env).bHandshakeSent = true ∧
        (tick s dt env).bHandshakeReceived = true)) ∧
    (s.ConnectionState = .Connected →
      (tick s dt env).ConnectionState = .Connected) := by
  have ht := tickTimers_state s dt env.refreshEnv
  simp only [tick]
  revert ht
  generalize tickTimers s dt env.refreshEnv = s1
  intro ht
  cases hc : s1.ConnectionState with
  | New =>
    exact ⟨fun h => absurd (hc.symm.trans h) (by decide),
           fun h => absurd (hc.symm.trans (ht.trans h)) (by decide)⟩
  | Gathering =>
    exact ⟨fun h => absurd (hc.symm.trans h) (by decide),
           fun h => absurd (hc.symm.trans (ht.trans h)) (by decide)⟩
  | Failed =>
    exact ⟨fun h => absurd (hc.symm.trans h) (by decide),
           fun h => absurd (hc.symm.trans (ht.trans h)) (by decide)⟩
  | ConnectingDirect =>
    dsimp only
    constructor
    · intro h
      split_ifs at h with hcond
      · exact absurd h (scc_not_connected s1 env.sccEnv (by simp [hc]))
      · rw [hc] at h
        exact absurd h (by decide)
    · intro h
      exact absurd (hc.symm.trans (ht.trans h)) (by decide)
  | ConnectingRelay =>
    dsimp only
    constructor
    · intro h
      split_ifs at h with hcond
      · rw [updateConnectionState_state] at h
        exact absurd h (by decide)
      · rw [hc] at h
        exact absurd h (by decide)
    · intro h
      exact absurd (hc.symm.trans (ht.trans h)) (by decide)
  | Connected =>
    exact ⟨fun _ => Or.inl (ht.symm.trans hc),
           fun _ => (processReceivedData_spec s1 env.prdEnv).1 hc⟩
  | PerformingHandshake =>
    dsimp only
    constructor
    · intro h
      split_ifs at h ⊢ with h1 h2 h3
      · rw [updateConnectionState_state] at h
        exact absurd h (by decide)
      · right
        simp only [not_or, Bool.not_eq_false] at h2
        exact ⟨h2.1, h2.2⟩
      · exfalso
        have h' : ((sendHandshake
            { (processReceivedData s1 env.prdEnv).2 with
              TimeSinceHandshakeStart :=
                ((processReceivedData s1 env.prdEnv).2).TimeSinceHandshakeStart + dt
              TimeSinceLastHandshakeSend :=
                ((processReceivedData s1 env.prdEnv).2).TimeSinceLastHandshakeSend + dt }
            env.retryEnv).2).ConnectionState = .Connected := h
        rw [sendHandshake_state] at h'
        have h'' : ((processReceivedData s1 env.prdEnv).2).ConnectionState
            = .Connected := h'
        have hne : ((processReceivedData s1 env.prdEnv).2).ConnectionState
            ≠ s1.ConnectionState := by
          rw [h'', hc]
          decide
        obtain ⟨-, -, hrecv⟩ := (processReceivedData_spec s1 env.prdEnv).2 hne
        simp only [shouldRetryHandshake] at h3
        have hfalse : ((processReceivedData s1 env.prdEnv).2).bHandshakeReceived
            = false := h3.2.2
        rw [hrecv] at hfalse
        exact absurd hfalse (by decide)
      · have h'' : ((processReceivedData s1 env.prdEnv).2).ConnectionState
            = .Connected := h
        have hne : ((processReceivedData s1 env.prdEnv).2).ConnectionState
            ≠ s1.ConnectionState := by
          rw [h'', hc]
          decide
        obtain ⟨-, hsent, hrecv⟩ := (processReceivedData_spec s1 env.prdEnv).2 hne
        exact Or.inr ⟨hsent, hrecv⟩
    · intro h
      exact absurd (hc.symm.trans (ht.trans h)) (by decide)

end OnlineSubsystemICE

namespace OnlineSubsystemICE

/-- A connected agent with a completed handshake, used to exercise the
state-machine invariant at a concrete state. -/
def connectedAgent : FICEAgent :=
  { mkFICEAgent emptyConfig with
    ConnectionState := .Connected
    bIsConnected := true
    bHandshakeSent := true
    bHandshakeReceived := true }

/-- **C6.** State-machine invariant over every public operation
(`GatherCandidates`, `AddRemoteCandidate`, `StartConnectivityChecks`,
`Tick`, `SendData`, `ReceiveData`, `Close`): no operation moves the agent
into `Connected` unless it was already connected or both handshake flags
hold at that step, and no operation other than `Close` moves it out of
`Connected`. -/
theorem connected_transitions (s : FICEAgent) (op : FICEAgentOp) :
    ((applyOp s op).ConnectionState = .Connected →
      s.ConnectionState = .Connected ∨
      ((applyOp s op).bHandshakeSent = true ∧
        (applyOp s op).bHandshakeReceived = true)) ∧
    (s.ConnectionState = .Connected → op ≠ .close →
      (applyOp s op).ConnectionState = .Connected) := by
  cases op with
  | gather env =>
    have hg := gatherCandidates_state s env
    exact ⟨fun h => Or.inl (hg.symm.trans h), fun h _ => hg.trans h⟩
  | addRemote c => exact ⟨fun h => Or.inl h, fun h _ => h⟩
  | startChecks env =>
    by_cases hs : s.ConnectionState = .Connected
    · refine ⟨fun _ => Or.inl hs, fun _ _ => ?_⟩
      show ((startConnectivityChecks s env).2).ConnectionState = .Connected
      rw [scc_connected s env hs]
      exact hs
    · exact ⟨fun h => absurd h (scc_not_connected s env hs), fun h _ => absurd h hs⟩
  | tick dt env =>
    exact ⟨(tick_spec s dt env).1, fun h _ => (tick_spec s dt env).2 h⟩
  | send Data env => exact ⟨fun h => Or.inl h, fun h _ => h⟩
  | recv => exact ⟨fun h => Or.inl h, fun h _ => h⟩
  | close =>
    exact ⟨fun h => absurd h (by simp [applyOp, close]),
           fun _ hne => absurd rfl hne⟩

/-- Witness for `connected_transitions`: adding a remote candidate to a
connected agent keeps it connected, and an operation that lands in
`Connected` started there. -/
theorem connected_transitions_witness :
    (connectedAgent.ConnectionState = EICEConnectionState.Connected ∨
      ((applyOp connectedAgent
          (FICEAgentOp.addRemote FICECandidate.default)).bHandshakeSent = true ∧
        (applyOp connectedAgent
          (FICEAgentOp.addRemote FICECandidate.default)).bHandshakeReceived = true)) ∧
    (applyOp connectedAgent
        (FICEAgentOp.addRemote FICECandidate.default)).ConnectionState
      = EICEConnectionState.Connected :=
  ⟨(connected_transitions connectedAgent
      (FICEAgentOp.addRemote FICECandidate.default)).1 rfl,
   (connected_transitions connectedAgent
      (FICEAgentOp.addRemote FICECandidate.default)).2 rfl
     (fun h => FICEAgentOp.noConfusion h)⟩

end OnlineSubsystemICE
